import Mathlib

/-!
# Open-NWI: batch loading, CBSA enrichment and the score resolver

A shallow embedding of `src/nwi.go` (batch loader, enrichment pass) and of
`src/api/views.go` (`getGeoid`, `GetScores`), with the parts of Go's `strconv`
they call.  Go strings are byte sequences, Go `int`/`uint64` are `Int`/`Nat`
with the 64-bit bounds written out, `float64` values are only carried around
and are represented by their IEEE-754 bit pattern.
-/

set_option linter.dupNamespace false

namespace OpenNWI

/-! ## Go strings -/

/-- A Go string: an immutable sequence of bytes. -/
abbrev GoString := List UInt8

/-- The bytes of an ASCII literal. -/
def ascii (s : String) : GoString := s.toList.map (fun c => UInt8.ofNat c.toNat)

/-- A `float64`, carried as its 64-bit pattern; the code only copies such values. -/
abbrev Float64 := Nat

/-! ## strconv -/

/-- The two causes a `*strconv.NumError` can carry. -/
inductive NumError where
  | ErrSyntax
  | ErrRange
  deriving DecidableEq, Repr

/-- Largest `uint64`. -/
def maxUint64 : Nat := 2 ^ 64 - 1

/-- The digit loop of `strconv.ParseUint(s, 10, 64)`; `n` is the value read so far.
Every byte outside `'0'..'9'` is a syntax error in base 10 (letters give a digit
`>= base`, and `_` is only accepted for base 0). -/
def parseUintLoop : List UInt8 → Nat → Nat × Option NumError
  | [], n => (n, none)
  | c :: cs, n =>
    if 48 ≤ c.toNat ∧ c.toNat ≤ 57 then
      if n ≥ maxUint64 / 10 + 1 then
        (maxUint64, some NumError.ErrRange)
      else
        let n10 := n * 10
        let n1 := (n10 + (c.toNat - 48)) % 2 ^ 64
        if n1 < n10 ∨ n1 > maxUint64 then
          (maxUint64, some NumError.ErrRange)
        else
          parseUintLoop cs n1
    else
      (0, some NumError.ErrSyntax)

/-- Go's `strconv.ParseUint(s, 10, 64)`: the value and the error, as Go returns them
(the value is `0` with a syntax error and `maxUint64` with a range error). -/
def ParseUint (s : GoString) : Nat × Option NumError :=
  if s = [] then (0, some NumError.ErrSyntax) else parseUintLoop s 0

/-- The number a string of decimal digits denotes, most significant digit first. -/
def decimalValue (s : GoString) : Nat :=
  s.foldl (fun n c => n * 10 + (c.toNat - 48)) 0

/-- A byte is one of `'0'..'9'`. -/
def isDigit (c : UInt8) : Prop := 48 ≤ c.toNat ∧ c.toNat ≤ 57

instance isDigit.decidable : DecidablePred isDigit :=
  fun c => inferInstanceAs (Decidable (48 ≤ c.toNat ∧ c.toNat ≤ 57))

/-- Go's `strconv.ParseInt(s, 10, 0)` on a 64-bit platform. -/
def ParseInt (s : GoString) : Int × Option NumError :=
  match s with
  | [] => (0, some NumError.ErrSyntax)
  | c :: rest =>
    let neg : Bool := c = 45
    let digits : GoString := if c = 43 ∨ c = 45 then rest else s
    match ParseUint digits with
    | (_, some NumError.ErrSyntax) => (0, some NumError.ErrSyntax)
    | (un, _) =>
      let cutoff : Nat := 2 ^ 63
      if neg = false ∧ un ≥ cutoff then
        ((cutoff : Int) - 1, some NumError.ErrRange)
      else if neg = true ∧ un > cutoff then
        (-(cutoff : Int), some NumError.ErrRange)
      else
        (if neg then -(un : Int) else (un : Int), none)

/-- Go's `strconv.Atoi(s)`, which is `ParseInt(s, 10, 0)` converted to `int`
(its fast path for short inputs computes the same result). -/
def Atoi (s : GoString) : Int × Option NumError := ParseInt s

/-! ## Errors and abnormal termination -/

/-- Error values that reach the code under study. -/
inductive Error where
  | num (cause : NumError) (input : GoString)
  | store (msg : String)
  | upstream (msg : String)
  | unknownParameter (format : GoString)
  deriving DecidableEq, Repr

/-- Ways a run ends without returning: `log.Fatal`/`log.Fatalln` (exit status 1)
or a Go run-time panic. -/
inductive Halt where
  | fatal (err : Error)
  | panic (msg : String)
  deriving DecidableEq, Repr

/-- The Go slice expression `data[i:j]`; out-of-range bounds panic. -/
def slice {α : Type} (data : List α) (i j : Nat) : Except Halt (List α) :=
  if i ≤ j ∧ j ≤ data.length then
    Except.ok ((data.take j).drop i)
  else
    Except.error (Halt.panic "slice bounds out of range")

/-! ## Package group_tracts: the stored entities (`src/group_tracts/models.go`) -/

namespace group_tracts

/-- Sub-entity `GeoidDetail`; of `gorm.Model` only the `ID` is kept. -/
structure GeoidDetail where
  ID : Nat
  Geoid : Nat
  Statefp : Nat
  Countryfp : Nat
  Tractce : Nat
  Blkgrpce : Nat
  deriving DecidableEq, Repr, Inhabited

/-- Sub-entity `CSA`. -/
structure CSA where
  ID : Nat
  Geoid : Nat
  CSA : Nat
  CSA_name : GoString
  deriving DecidableEq, Repr, Inhabited

/-- Entity `CBSA`.
Modelled from the spec: the fields `PublicTansitUsage` and `BikeRidership`, which
`nwi.go` assigns, are not declared by the `CBSA` struct under `src/`; the spec (§3) lets
a CBSA carry a transit-usage count and a bike ridership that the enrichment pass
updates in place.  Their types are those of the values `nwi.go` assigns to them. -/
structure CBSA where
  ID : Nat
  Geoid : Nat
  CBSA : Nat
  CBSA_name : GoString
  PublicTansitUsage : Float64
  BikeRidership : Nat
  deriving DecidableEq, Repr, Inhabited

/-- Sub-entity `AC`. -/
structure AC where
  ID : Nat
  Geoid : Nat
  AC_total : Float64
  AC_water : Float64
  AC_land : Float64
  AC_unpr : Float64
  deriving DecidableEq, Repr, Inhabited

/-- Sub-entity `Population`. -/
structure Population where
  ID : Nat
  Geoid : Nat
  Total_pop : Nat
  CountHU : Float64
  HH : Float64
  Workers : Nat
  deriving DecidableEq, Repr, Inhabited

/-- Sub-entity `Rank`. -/
structure Rank where
  ID : Nat
  Geoid : Nat
  D2b_e8mixa : Float64
  D2a_ephhm : Float64
  D3b : Float64
  D4a : Float64
  D2a_ranked : Float64
  D2b_ranked : Float64
  D3b_ranked : Float64
  D4a_ranked : Float64
  NWI : Float64
  deriving DecidableEq, Repr, Inhabited

/-- Sub-entity `Shape`. -/
structure Shape where
  ID : Nat
  Geoid : Nat
  Shape_length : Float64
  Shape_area : Float64
  Geometry : GoString
  deriving DecidableEq, Repr, Inhabited

/-- The composite entity `GroupTract` (time stamps left out). -/
structure GroupTract where
  Geoid10 : Nat
  Geoid20 : Nat
  GeoidDetail : GeoidDetail
  CSA : CSA
  CBSA : CBSA
  AC : AC
  Population : Population
  Rank : Rank
  Shape : Shape
  deriving DecidableEq, Repr, Inhabited

/-- Row of the zip-to-CBSA mapping.
Modelled from the spec: the `Zipcode` struct is not under `src/`; the spec (§3) says
it maps a zip code to an enclosing CBSA code. -/
structure Zipcode where
  ID : Nat
  Zipcode : GoString
  CBSA : Nat
  deriving DecidableEq, Repr, Inhabited

end group_tracts

/-! ## The store as `nwi.go` uses it -/

/-- State of the relational store behind `*gorm.DB` for the ingestion code: the
bulk inserts executed so far on the tract and zip-code tables (oldest first; a table
holds the concatenation of its inserts), the CBSA table, and `fault`, the error every
statement reports while the store is unavailable. -/
structure DB where
  fault : Option Error
  tractInserts : List (List group_tracts.GroupTract)
  zipInserts : List (List group_tracts.Zipcode)
  cbsas : List group_tracts.CBSA
  deriving DecidableEq, Repr, Inhabited

/-- The outcome of `db.Create(batch)` on the tract table: the store afterwards and
`result.Error`. -/
def DB.CreateTracts (db : DB) (batch : List group_tracts.GroupTract) : DB × Option Error :=
  match db.fault with
  | some err => (db, some err)
  | none => ({ db with tractInserts := db.tractInserts ++ [batch] }, none)

/-- The outcome of `db.Create(batch)` on the zip-code table. -/
def DB.CreateZipcodes (db : DB) (batch : List group_tracts.Zipcode) : DB × Option Error :=
  match db.fault with
  | some err => (db, some err)
  | none => ({ db with zipInserts := db.zipInserts ++ [batch] }, none)

/-! ## Batch loader (`src/nwi.go`) -/

/-- The constant `RANGE`. -/
def RANGE : Nat := 500

/-- The function `crete_entry`: one bulk insert of `data[i:create_range]`; a store
error is fatal.  Returns the store and `result.Error` of the returned result. -/
def crete_entry (db : DB) (data : List group_tracts.GroupTract) (i create_range : Nat) :
    Except Halt (DB × Option Error) :=
  match slice data i create_range with
  | Except.error h => Except.error h
  | Except.ok batch =>
    match db.CreateTracts batch with
    | (_, some err) => Except.error (Halt.fatal err)
    | (db1, none) => Except.ok (db1, none)

/-- The function `crete_zipcode_entry`. -/
def crete_zipcode_entry (db : DB) (data : List group_tracts.Zipcode) (i create_range : Nat) :
    Except Halt (DB × Option Error) :=
  match slice data i create_range with
  | Except.error h => Except.error h
  | Except.ok batch =>
    match db.CreateZipcodes batch with
    | (_, some err) => Except.error (Halt.fatal err)
    | (db1, none) => Except.ok (db1, none)

/-- The loop `for i := 0; i < data_len; i += RANGE` of `repopulateGroupTracts`,
entered at index `i`. -/
def repopulateLoop (db : DB) (res : List group_tracts.GroupTract) (i : Nat) : Except Halt DB :=
  if i < res.length then
    if i + RANGE < res.length then
      match crete_entry db res i (i + RANGE) with
      | Except.error h => Except.error h
      | Except.ok (_, some err) => Except.error (Halt.fatal err)
      | Except.ok (db1, none) => repopulateLoop db1 res (i + RANGE)
    else
      repopulateLoop db res (i + RANGE)
  else
    Except.ok db
termination_by res.length - i
decreasing_by all_goals (simp only [RANGE]; omega)

/-- The function `repopulateGroupTracts`.  `db_err` is the error of `ReadData(DB_FILE)`
and `res` the slice `CreateTractGroups` hands over the channel. -/
def repopulateGroupTracts (db : DB) (db_err : Option Error)
    (res : List group_tracts.GroupTract) : Except Halt DB :=
  match db_err with
  | some err => Except.error (Halt.fatal err)
  | none =>
    match repopulateLoop db res 0 with
    | Except.error h => Except.error h
    | Except.ok db1 =>
      let data_len := res.length
      let remainder := data_len % RANGE
      if remainder > 0 then
        match crete_entry db1 res (data_len - remainder) data_len with
        | Except.error h => Except.error h
        | Except.ok (_, some err) => Except.error (Halt.fatal err)
        | Except.ok (db2, none) => Except.ok db2
      else
        Except.ok db1

/-- The loop of `createZipToCBSA`, entered at index `i`. -/
def zipLoop (db : DB) (zipcodes : List group_tracts.Zipcode) (i : Nat) : Except Halt DB :=
  if i < zipcodes.length then
    if i + RANGE < zipcodes.length then
      match crete_zipcode_entry db zipcodes i (i + RANGE) with
      | Except.error h => Except.error h
      | Except.ok (_, some err) => Except.error (Halt.fatal err)
      | Except.ok (db1, none) => zipLoop db1 zipcodes (i + RANGE)
    else
      zipLoop db zipcodes (i + RANGE)
  else
    Except.ok db
termination_by zipcodes.length - i
decreasing_by all_goals (simp only [RANGE]; omega)

/-- The function `createZipToCBSA`; `zipcodes` is what `MatchZipToCBSA(ZIPCODE_FILE)`
returned. -/
def createZipToCBSA (db : DB) (zipcodes : List group_tracts.Zipcode) : Except Halt DB :=
  zipLoop db zipcodes 0

/-! ## CBSA enrichment pass (`src/nwi.go`) -/

/-- The query `db.Where("cbsa=?", key).Find(&cbsas)`: the rows of the CBSA table, in
table order, whose `cbsa` column the store finds equal to the text `key`.  How the
store compares the integer column with a text parameter is left to `sqlEq`. -/
def DB.FindCBSAs (db : DB) (sqlEq : GoString → Nat → Bool) (key : GoString) :
    Except Error (List group_tracts.CBSA) :=
  match db.fault with
  | some err => Except.error err
  | none => Except.ok (db.cbsas.filter (fun r => sqlEq key r.CBSA))

/-- The statement `db.Save(&cbsa)`: every column of the rows with the primary key of
`cbsa` (`ID` together with `CBSA`) is overwritten; when no row has that key the row is
inserted.  The call's error is ignored by the callers, so an unavailable store
leaves the table as it is. -/
def DB.SaveCBSA (db : DB) (cbsa : group_tracts.CBSA) : DB :=
  match db.fault with
  | some _ => db
  | none =>
    if db.cbsas.any (fun r => decide (r.ID = cbsa.ID ∧ r.CBSA = cbsa.CBSA)) then
      { db with cbsas := db.cbsas.map (fun r => if r.ID = cbsa.ID ∧ r.CBSA = cbsa.CBSA then cbsa else r) }
    else
      { db with cbsas := db.cbsas ++ [cbsa] }

/-- The inner loop `for _, cbsa := range cbsas` of `addTransitUsage`. -/
def saveTransitUsage (db : DB) (cbsas : List group_tracts.CBSA) (usage : Float64) : DB :=
  cbsas.foldl (fun d cbsa => d.SaveCBSA { cbsa with PublicTansitUsage := usage }) db

/-- The inner loop `for _, cbsa := range cbsas` of `addBikeRidership`. -/
def saveBikeRidership (db : DB) (cbsas : List group_tracts.CBSA) (usage : Nat) : DB :=
  cbsas.foldl (fun d cbsa => d.SaveCBSA { cbsa with BikeRidership := usage }) db

/-- One iteration of the record loop of `addTransitUsage`: the store afterwards and the
errors printed with `fmt.Println`.  `ParseFloat` stands for
`strconv.ParseFloat(_, 64)`, returning value and error as Go does. -/
def transitRecord (sqlEq : GoString → Nat → Bool) (ParseFloat : GoString → Float64 × Option NumError)
    (db : DB) (record : List GoString) : Except Halt (DB × List Error) :=
  match record[4]? with
  | none => Except.error (Halt.panic "index out of range")
  | some key =>
    match db.FindCBSAs sqlEq key with
    | Except.error err => Except.error (Halt.fatal err)
    | Except.ok cbsas =>
      match record[2]? with
      | none => Except.error (Halt.panic "index out of range")
      | some field =>
        match ParseFloat field with
        | (usage, some e) => Except.ok (saveTransitUsage db cbsas usage, [Error.num e field])
        | (usage, none) => Except.ok (saveTransitUsage db cbsas usage, [])

/-- One iteration of the record loop of `addBikeRidership`. -/
def bikeRecord (sqlEq : GoString → Nat → Bool) (db : DB) (record : List GoString) :
    Except Halt (DB × List Error) :=
  match record[3]? with
  | none => Except.error (Halt.panic "index out of range")
  | some key =>
    match db.FindCBSAs sqlEq key with
    | Except.error err => Except.error (Halt.fatal err)
    | Except.ok cbsas =>
      match record[2]? with
      | none => Except.error (Halt.panic "index out of range")
      | some field =>
        match ParseUint field with
        | (usage, some e) => Except.ok (saveBikeRidership db cbsas usage, [Error.num e field])
        | (usage, none) => Except.ok (saveBikeRidership db cbsas usage, [])

/-- The record loop `for _, record := range data` with loop body `body`, carrying the
store and the lines printed so far. -/
def recordLoop (body : DB → List GoString → Except Halt (DB × List Error)) :
    List (List GoString) → DB × List Error → Except Halt (DB × List Error)
  | [], st => Except.ok st
  | record :: rest, (db, printed) =>
    match body db record with
    | Except.error h => Except.error h
    | Except.ok (db1, lines) => recordLoop body rest (db1, printed ++ lines)

/-- The function `addTransitUsage`; `transit_err` and `transit_data` are what
`ReadData(CBSA_TRANSIT_FILE)` returned. -/
def addTransitUsage (sqlEq : GoString → Nat → Bool) (ParseFloat : GoString → Float64 × Option NumError)
    (db : DB) (transit_err : Option Error) (transit_data : List (List GoString)) :
    Except Halt (DB × List Error) :=
  match transit_err with
  | some err => Except.error (Halt.fatal err)
  | none => recordLoop (transitRecord sqlEq ParseFloat) transit_data (db, [])

/-- The function `addBikeRidership`; `transit_err` and `bike_data` are what
`ReadData(CBSA_BIKE_FILE)` returned. -/
def addBikeRidership (sqlEq : GoString → Nat → Bool)
    (db : DB) (transit_err : Option Error) (bike_data : List (List GoString)) :
    Except Halt (DB × List Error) :=
  match transit_err with
  | some err => Except.error (Halt.fatal err)
  | none => recordLoop (bikeRecord sqlEq) bike_data (db, [])

/-! ## Package models: the rows the API reads -/

namespace models

/-- The struct `Rank` of `src/models/rank.go` (the `gorm.Model` bookkeeping columns left
out). -/
structure Rank where
  Geoid : Nat
  D2b_e8mixa : Float64
  D2a_ephhm : Float64
  D3b : Float64
  D4a : Float64
  D2a_ranked : Float64
  D2b_ranked : Float64
  D3b_ranked : Float64
  D4a_ranked : Float64
  BikeCountRank : Nat
  BikePercentageRank : Nat
  BikeFatalityRank : Nat
  BikeShareRank : Nat
  NWI : Float64
  TransitScore : Nat
  BikeScore : Float64
  deriving DecidableEq, Repr, Inhabited

/-- Row of the CBSA table as the API reads it.
Modelled from the spec: the struct `models.CBSA` is not under `src/`; `views.go` reads
its `Geoid`, `CBSA_name`, `PublicTansitPercentage`, `PublicTansitEstimate` and
`BikeRidership`, and filters on the column `cbsa`; the spec (§3) describes a metro-area
aggregate keyed by its area code that carries the geoid of a tract.  The three regional
figures are only copied into the response. -/
structure CBSA where
  Geoid : Nat
  CBSA : Nat
  CBSA_name : GoString
  PublicTansitPercentage : Float64
  PublicTansitEstimate : Float64
  BikeRidership : Nat
  deriving DecidableEq, Repr, Inhabited

/-- Row of the CSA table as the API reads it.
Modelled from the spec: the struct `models.CSA` is not under `src/`; `views.go` reads
its `Geoid` and `CSA_name`. -/
structure CSA where
  Geoid : Nat
  CSA : Nat
  CSA_name : GoString
  deriving DecidableEq, Repr, Inhabited

/-- Row of the zip-code table as the API reads it.
Modelled from the spec: the struct `models.ZipCode` is not under `src/`; `views.go`
filters on the column `zipcode` and reads the field `CBSA`. -/
structure ZipCode where
  Zipcode : GoString
  CBSA : Nat
  deriving DecidableEq, Repr, Inhabited

end models

/-! ## Package serializers: what the API decodes and renders -/

namespace serializers

/-- One census block of a geocoder match.
Modelled from the spec: package `serializers` is not under `src/`; `getGeoid` reads
`Result.AddressMatches[0].Geographies.CensusBlocks[0].Geoid`, a string. -/
structure CensusBlock where
  Geoid : GoString
  deriving DecidableEq, Repr, Inhabited

/-- The geographies of a match. -/
structure Geographies where
  CensusBlocks : List CensusBlock
  deriving DecidableEq, Repr, Inhabited

/-- One address match. -/
structure AddressMatch where
  Geographies : Geographies
  deriving DecidableEq, Repr, Inhabited

/-- The `Result` member of the geocoder answer. -/
structure GeoResult where
  AddressMatches : List AddressMatch
  deriving DecidableEq, Repr, Inhabited

/-- The decoded geocoder answer `GeoCodingResult`. -/
structure GeoCodingResult where
  Result : GeoResult
  deriving DecidableEq, Repr, Inhabited

/-- The struct `ScoresQuery`, built by `GetScores` from its two `int`s. -/
structure ScoresQuery where
  Limit : Int
  Offset : Int
  deriving DecidableEq, Repr, Inhabited

/-- The struct `AddressScoreResult`, with the fields `GetScores` fills. -/
structure AddressScoreResult where
  Geoid : Nat
  NWI : Float64
  SearchedAddress : GoString
  RegionalTransitUsagePercentage : Float64
  RegionalTransitUsage : Float64
  RegionalBikeRidership : Nat
  Format : GoString
  deriving DecidableEq, Repr, Inhabited

/-- The struct `AddressScoreResultXML`, with the fields `GetScores` fills. -/
structure AddressScoreResultXML where
  Geoid : Nat
  NWI : Float64
  SearchedAddress : GoString
  RegionalTransitUsagePercentage : Float64
  RegionalTransitUsage : Float64
  RegionalBikeRidership : Nat
  Format : GoString
  deriving DecidableEq, Repr, Inhabited

/-- The struct `ScoreResult`, with the fields `GetScores` fills. -/
structure ScoreResult where
  ID : Int
  Geoid : Nat
  CSA_name : GoString
  CBSA_name : GoString
  NWI : Float64
  RegionalTransitUsagePercentage : Float64
  RegionalTransitUsage : Float64
  RegionalBikeRidership : Nat
  Format : GoString
  deriving DecidableEq, Repr, Inhabited

/-- The struct `ScoreResultXML`, with the fields `GetScores` fills. -/
structure ScoreResultXML where
  ID : Int
  Geoid : Nat
  CSA_name : GoString
  CBSA_name : GoString
  NWI : Float64
  RegionalTransitUsagePercentage : Float64
  RegionalTransitUsage : Float64
  RegionalBikeRidership : Nat
  Format : GoString
  deriving DecidableEq, Repr, Inhabited

end serializers

/-! ## Package api (`src/api/views.go`) -/

namespace api

/-- What the geocoding service hands back to `getGeoid`: either one of the errors of
building the request, sending it, reading the body or decoding it, or the decoded
answer. -/
inductive GeocoderReply where
  | failed (err : Error)
  | decoded (geoidResults : serializers.GeoCodingResult)
  deriving DecidableEq, Repr

/-- The function `getGeoid`; `geocode` is the external service, asked with the URL-ready
address.  The block geoid of the first match loses its last three bytes; indexing an
empty `CensusBlocks` and slicing a geoid shorter than three bytes panic. -/
def getGeoid (geocode : GoString → GeocoderReply) (address : GoString) :
    Except Halt (GoString × Option Error) :=
  match geocode address with
  | GeocoderReply.failed err => Except.ok ([], some err)
  | GeocoderReply.decoded geoidResults =>
    match geoidResults.Result.AddressMatches with
    | m :: _ =>
      match m.Geographies.CensusBlocks with
      | [] => Except.error (Halt.panic "index out of range")
      | block :: _ =>
        if block.Geoid.length < 3 then
          Except.error (Halt.panic "slice bounds out of range")
        else
          match slice block.Geoid 0 (block.Geoid.length - 3) with
          | Except.error h => Except.error h
          | Except.ok geoid => Except.ok (geoid, none)
    | [] => Except.ok ([], none)

/-- The read side of `h.DB`, one function per statement `GetScores` issues.  Each
returns what the statement leaves in its destination together with `result.Error`;
`ScanRanks` also takes the previous content of its destination, which the handler
keeps using when the statement fails. -/
structure Store where
  /-- The query `Where("geoid=?", geoid10).First(&score)`. -/
  FirstRank : Nat → models.Rank × Option Error
  /-- The query `Where(&models.CBSA{Geoid: g}).First(&cbsa)`. -/
  FirstCBSA : Nat → models.CBSA × Option Error
  /-- The query `Where(&models.CSA{Geoid: g}).First(&csa)`. -/
  FirstCSA : Nat → models.CSA × Option Error
  /-- The query `Limit(l).Offset(o).Find(&scores)`. -/
  FindRanks : Int → Int → List models.Rank × Option Error
  /-- The query `Limit(l).Offset(o).Where("zipcode=?", zipcode).Find(&res)`. -/
  FindZipCodes : Int → Int → GoString → List models.ZipCode × Option Error
  /-- The query `Limit(l).Offset(o).Where("cbsa=?", code).Model(&models.Rank{})` joined
  to `cbsas` on the geoid and scanned into `zipScores`. -/
  ScanRanks : Int → Int → Nat → List models.Rank → List models.Rank × Option Error

/-- The struct `handler`. -/
structure handler where
  DB : Store

/-- What `ctx.JSON` has been asked to render. -/
inductive Payload where
  | addressScore (result : serializers.AddressScoreResult)
  | addressScoreXML (result : serializers.AddressScoreResultXML)
  | scores (results : List serializers.ScoreResult)
  | scoresXML (results : List serializers.ScoreResultXML)
  deriving DecidableEq, Repr

/-- The query parameters of a request, as `ctx.Query` returns them (`""` when the
parameter is absent). -/
structure Request where
  address : GoString
  format : GoString
  zipcode : GoString
  limit : GoString
  offset : GoString
  deriving DecidableEq, Repr, Inhabited

/-- The part of `*gin.Context` the handler writes: the status of the response writer
(200 until set), whether the header went out, the abort flag, `ctx.Errors`, and the
payloads rendered into the body. -/
structure Context where
  status : Nat
  written : Bool
  aborted : Bool
  Errors : List Error
  body : List Payload
  deriving DecidableEq, Repr

/-- The context gin hands to a handler. -/
def Context.fresh : Context :=
  { status := 200, written := false, aborted := false, Errors := [], body := [] }

/-- The method `ctx.AbortWithError(code, err)`: sets the status unless the header is
already out, writes the header, aborts, and records the error. -/
def Context.AbortWithError (ctx : Context) (code : Nat) (err : Error) : Context :=
  { ctx with
    status := if ctx.written then ctx.status else code
    written := true
    aborted := true
    Errors := ctx.Errors ++ [err] }

/-- The method `ctx.JSON(code, obj)`: sets the status unless the header is already out
and renders `obj` into the body. -/
def Context.JSON (ctx : Context) (code : Nat) (obj : Payload) : Context :=
  { ctx with
    status := if ctx.written then ctx.status else code
    written := true
    body := ctx.body ++ [obj] }

/-- The constants `http.StatusOK`, `http.StatusBadRequest` and `http.StatusNotFound`. -/
def StatusOK : Nat := 200

/-- The constant `http.StatusBadRequest`. -/
def StatusBadRequest : Nat := 400

/-- The constant `http.StatusNotFound`. -/
def StatusNotFound : Nat := 404

/-- The call `strings.ReplaceAll(s, old, new)` for a one-byte `old`. -/
def ReplaceAll (s : GoString) (old : UInt8) (new : GoString) : GoString :=
  s.flatMap (fun c => if c = old then new else [c])

/-- A Go `int` sum on a 64-bit platform (two's complement wrap-around). -/
def addInt (a b : Int) : Int := (a + b + 2 ^ 63) % 2 ^ 64 - 2 ^ 63

/-- The loop `for i := range scores` of the `"json"` case, entered at index `i`. -/
def jsonResults (h : handler) (format : GoString) (offset : Int) :
    List models.Rank → Nat → List serializers.ScoreResult
  | [], _ => []
  | score :: rest, i =>
    let csa : models.CSA :=
      match h.DB.FirstCSA score.Geoid with
      | (csa, some _) => { csa with CSA_name := [] }
      | (csa, none) => csa
    let cbsa : models.CBSA :=
      match h.DB.FirstCBSA score.Geoid with
      | (cbsa, some _) => { cbsa with CBSA_name := [] }
      | (cbsa, none) => cbsa
    { ID := addInt i offset
      Geoid := score.Geoid
      CSA_name := csa.CSA_name
      CBSA_name := cbsa.CBSA_name
      NWI := score.NWI
      RegionalTransitUsagePercentage := cbsa.PublicTansitPercentage
      RegionalTransitUsage := cbsa.PublicTansitEstimate
      RegionalBikeRidership := cbsa.BikeRidership
      Format := format } :: jsonResults h format offset rest (i + 1)

/-- The loop `for i := range scores` of the `"xml"` case, entered at index `i`. -/
def xmlResults (h : handler) (format : GoString) (offset : Int) :
    List models.Rank → Nat → List serializers.ScoreResultXML
  | [], _ => []
  | score :: rest, i =>
    let csa : models.CSA :=
      match h.DB.FirstCSA score.Geoid with
      | (csa, some _) => { csa with CSA_name := [] }
      | (csa, none) => csa
    let cbsa : models.CBSA :=
      match h.DB.FirstCBSA score.Geoid with
      | (cbsa, some _) => { cbsa with CBSA_name := [] }
      | (cbsa, none) => cbsa
    { ID := addInt i offset
      Geoid := score.Geoid
      CSA_name := csa.CSA_name
      CBSA_name := cbsa.CBSA_name
      NWI := score.NWI
      RegionalTransitUsagePercentage := cbsa.PublicTansitPercentage
      RegionalTransitUsage := cbsa.PublicTansitEstimate
      RegionalBikeRidership := cbsa.BikeRidership
      Format := format } :: xmlResults h format offset rest (i + 1)

/-- The loop `for _, item := range res` of the zip-code branch: `scores` and
`zipScores` after the loop, and the errors printed.  A failed scan is only printed;
whatever `zipScores` then holds is appended all the same. -/
def zipScoresLoop (h : handler) (query : serializers.ScoresQuery) :
    List models.ZipCode → List models.Rank × List models.Rank × List Error →
    List models.Rank × List models.Rank × List Error
  | [], st => st
  | item :: rest, (scores, zipScores, printed) =>
    match h.DB.ScanRanks query.Limit query.Offset item.CBSA zipScores with
    | (zipScores1, some err) =>
      zipScoresLoop h query rest (scores ++ zipScores1, zipScores1, printed ++ [err])
    | (zipScores1, none) =>
      zipScoresLoop h query rest (scores ++ zipScores1, zipScores1, printed)

/-- The limit and offset of listing mode: `strconv.Atoi` of the two parameters, replaced
by 50 and 0 when `Atoi` reports an error. -/
def listingQuery (req : Request) : serializers.ScoresQuery :=
  let limit : Int :=
    match Atoi req.limit with
    | (_, some _) => 50
    | (limit, none) => limit
  let offset : Int :=
    match Atoi req.offset with
    | (_, some _) => 0
    | (offset, none) => offset
  { Limit := limit, Offset := offset }

/-- The first half of listing mode: the rows left in `scores`, or the context after
`AbortWithError` when a `Find` failed. -/
def fetchScores (h : handler) (req : Request) (ctx : Context) : Except Context (List models.Rank) :=
  let zipcode := req.zipcode
  let query := listingQuery req
  if zipcode = [] then
    match h.DB.FindRanks query.Limit query.Offset with
    | (_, some err) => Except.error (ctx.AbortWithError StatusNotFound err)
    | (scores, none) => Except.ok scores
  else
    match h.DB.FindZipCodes query.Limit query.Offset zipcode with
    | (_, some err) => Except.error (ctx.AbortWithError StatusNotFound err)
    | (res, none) => Except.ok (zipScoresLoop h query res ([], [], [])).1

/-- The second half of listing mode: the `switch` on the format, which has no
`default` case. -/
def renderScores (h : handler) (req : Request) (ctx : Context) (scores : List models.Rank) : Context :=
  let format := req.format
  let offset := (listingQuery req).Offset
  if format = ascii "json" then
    ctx.JSON StatusOK (Payload.scores (jsonResults h format offset scores 0))
  else if format = ascii "xml" then
    ctx.JSON StatusOK (Payload.scoresXML (xmlResults h format offset scores 0))
  else
    ctx

/-- The method `GetScores`, run on the context `ctx` of a request with query parameters
`req`: the context when the handler returns, or the panic that ends the process (the
geocoder call runs in its own goroutine). -/
def GetScores (h : handler) (geocode : GoString → GeocoderReply) (req : Request) (ctx : Context) :
    Except Halt Context :=
  let address := ReplaceAll req.address 32 (ascii "%20")
  if address ≠ [] then
    match getGeoid geocode address with
    | Except.error halt => Except.error halt
    | Except.ok (res, err) =>
      let ctx1 : Context :=
        match err with
        | some e => ctx.AbortWithError StatusNotFound e
        | none => ctx
      match ParseUint res with
      | (_, some e) => Except.ok (ctx1.AbortWithError StatusNotFound (Error.num e res))
      | (geoid10, none) =>
        match h.DB.FirstRank geoid10 with
        | (_, some e) => Except.ok (ctx1.AbortWithError StatusNotFound e)
        | (score, none) =>
          match h.DB.FirstCBSA geoid10 with
          | (_, some e) => Except.ok (ctx1.AbortWithError StatusNotFound e)
          | (cbsa, none) =>
            let format := req.format
            if format = ascii "json" then
              Except.ok (ctx1.JSON StatusOK (Payload.addressScore
                { Geoid := geoid10
                  NWI := score.NWI
                  SearchedAddress := req.address
                  RegionalTransitUsagePercentage := cbsa.PublicTansitPercentage
                  RegionalTransitUsage := cbsa.PublicTansitEstimate
                  RegionalBikeRidership := cbsa.BikeRidership
                  Format := format }))
            else if format = ascii "xml" then
              Except.ok (ctx1.JSON StatusOK (Payload.addressScoreXML
                { Geoid := geoid10
                  NWI := score.NWI
                  SearchedAddress := req.address
                  RegionalTransitUsagePercentage := cbsa.PublicTansitPercentage
                  RegionalTransitUsage := cbsa.PublicTansitEstimate
                  RegionalBikeRidership := cbsa.BikeRidership
                  Format := format }))
            else
              Except.ok (ctx1.AbortWithError StatusBadRequest (Error.unknownParameter format))
  else
    match fetchScores h req ctx with
    | Except.error ctx1 => Except.ok ctx1
    | Except.ok scores => Except.ok (renderScores h req ctx scores)

/-! ### A store given by its tables -/

/-- The rows of the four tables the API reads, each in primary-key order, soft-deleted
rows left out. -/
structure Tables where
  ranks : List models.Rank
  cbsas : List models.CBSA
  csas : List models.CSA
  zipcodes : List models.ZipCode
  deriving DecidableEq, Repr, Inhabited

/-- The clauses `LIMIT limit OFFSET offset` on a result in table order, for a positive
`limit` and a non-negative `offset`; GORM sends no `OFFSET` clause for an offset that
is not positive, and a limit that is not positive is taken here as no `LIMIT` clause. -/
def window {α : Type} (limit offset : Int) (rows : List α) : List α :=
  let rest := if 0 < offset then rows.drop offset.toNat else rows
  if 0 < limit then rest.take limit.toNat else rest

/-- What `First` leaves behind: the first row satisfying `p`, or the zero value of the
destination and `ErrRecordNotFound`. -/
def firstWhere {α : Type} (rows : List α) (p : α → Bool) (zero : α) : α × Option Error :=
  match rows.find? p with
  | some row => (row, none)
  | none => (zero, some (Error.store "record not found"))

/-- The rows of `ranks left join cbsas on cbsas.geoid = ranks.geoid where cbsa = code`,
scanned into `models.Rank` values: one copy of a rank row per CBSA row of that code
with the same geoid. -/
def joinedRanks (t : Tables) (code : Nat) : List models.Rank :=
  t.ranks.flatMap (fun r =>
    (t.cbsas.filter (fun c => decide (c.Geoid = r.Geoid ∧ c.CBSA = code))).map (fun _ => r))

/-- The statements of `GetScores` run against given tables on an available store.  A
struct condition such as `&models.CBSA{Geoid: g}` contributes no `WHERE` clause when
`g` is zero, since GORM skips zero-valued fields. -/
def tableStore (t : Tables) : Store where
  FirstRank := fun g => firstWhere t.ranks (fun r => decide (r.Geoid = g)) default
  FirstCBSA := fun g => firstWhere t.cbsas (fun c => decide (g = 0 ∨ c.Geoid = g)) default
  FirstCSA := fun g => firstWhere t.csas (fun c => decide (g = 0 ∨ c.Geoid = g)) default
  FindRanks := fun limit offset => (window limit offset t.ranks, none)
  FindZipCodes := fun limit offset zipcode =>
    (window limit offset (t.zipcodes.filter (fun z => decide (z.Zipcode = zipcode))), none)
  ScanRanks := fun limit offset code _ => (window limit offset (joinedRanks t code), none)

/-- A geocoder whose answer to every address is one match in the census block `geoid`. -/
def geocodeBlock (geoid : GoString) : GoString → GeocoderReply :=
  fun _ => GeocoderReply.decoded
    { Result := { AddressMatches := [{ Geographies := { CensusBlocks := [{ Geoid := geoid }] } }] } }

/-- A geocoder that finds no match for any address. -/
def geocodeNoMatch : GoString → GeocoderReply :=
  fun _ => GeocoderReply.decoded { Result := { AddressMatches := [] } }

/-- A rank row with the given geoid and NWI, every other column zero. -/
def rankRow (geoid : Nat) (nwi : Float64) : models.Rank :=
  { (default : models.Rank) with Geoid := geoid, NWI := nwi }

/-- Test tables: zip code 94601 lies in the two CBSAs 41860 and 41940; tract 6001400100
belongs to the first and tract 6085500100 to the second; a third row sits at geoid
60014001 in CBSA 10000. -/
def sampleTables : Tables where
  ranks := [rankRow 6001400100 142, rankRow 6085500100 97, rankRow 60014001 55]
  cbsas :=
    [ { Geoid := 6001400100, CBSA := 41860, CBSA_name := ascii "San Francisco-Oakland",
        PublicTansitPercentage := 17, PublicTansitEstimate := 400000, BikeRidership := 30000 },
      { Geoid := 6085500100, CBSA := 41940, CBSA_name := ascii "San Jose-Sunnyvale",
        PublicTansitPercentage := 4, PublicTansitEstimate := 40000, BikeRidership := 9000 },
      { Geoid := 60014001, CBSA := 10000, CBSA_name := ascii "Elsewhere",
        PublicTansitPercentage := 1, PublicTansitEstimate := 10, BikeRidership := 5 } ]
  csas := [ { Geoid := 6001400100, CSA := 488, CSA_name := ascii "San Jose-San Francisco-Oakland" } ]
  zipcodes := [ { Zipcode := ascii "94601", CBSA := 41860 }, { Zipcode := ascii "94601", CBSA := 41940 } ]

/-- The handler over the test tables. -/
def sampleHandler : handler := { DB := tableStore sampleTables }

/-- An address request in JSON format. -/
def sampleAddressRequest : Request :=
  { address := ascii "1 Main St", format := ascii "json", zipcode := [], limit := [], offset := [] }

/-- A listing request in JSON format with an unparseable limit and the offset 1. -/
def sampleListingRequest : Request :=
  { address := [], format := ascii "json", zipcode := [], limit := ascii "many", offset := ascii "1" }

/-- A listing request in JSON format for zip code 94601 without limit and offset. -/
def sampleZipRequest : Request :=
  { address := [], format := ascii "json", zipcode := ascii "94601", limit := [], offset := [] }

end api

/-- What a run of `Save` calls with the values `saved`, in that order, makes of one table
row: each saved value with the row's primary key replaces it. -/
def savedRow (saved : List group_tracts.CBSA) (row : group_tracts.CBSA) : group_tracts.CBSA :=
  saved.foldl (fun acc c => if acc.ID = c.ID ∧ acc.CBSA = c.CBSA then c else acc) row

/-- A comparison of the `cbsa` column with a text parameter: the text is the decimal
numeral of the column value. -/
def decimalEq (key : GoString) (code : Nat) : Bool := decide (ParseUint key = (code, none))

/-- A healthy store whose CBSA table holds two metro areas with their figures. -/
def sampleDB : DB where
  fault := none
  tractInserts := []
  zipInserts := []
  cbsas :=
    [ { ID := 1, Geoid := 6001400100, CBSA := 41860, CBSA_name := ascii "San Francisco-Oakland",
        PublicTansitUsage := 400000, BikeRidership := 30000 },
      { ID := 2, Geoid := 6085500100, CBSA := 41940, CBSA_name := ascii "San Jose-Sunnyvale",
        PublicTansitUsage := 40000, BikeRidership := 9000 } ]

/-- A `ParseFloat` stand-in for the test runs: numerals of at most 19 digits give the
pattern of their value, anything else is a syntax error with value 0. -/
def sampleParseFloat (s : GoString) : Float64 × Option NumError :=
  match ParseUint s with
  | (v, none) => (v, none)
  | (_, some _) => (0, some NumError.ErrSyntax)

/-- A record of the bike-ridership extract for CBSA 41860 whose ridership field is not
a number. -/
def sampleBikeRecord : List GoString :=
  [ascii "2019", ascii "San Francisco-Oakland", ascii "n/a", ascii "41860"]

/-- A record of the transit-usage extract for CBSA 41940 whose usage field is not a
number. -/
def sampleTransitRecord : List GoString :=
  [ascii "2019", ascii "San Jose-Sunnyvale", ascii "n/a", ascii "4.1", ascii "41940"]

/-- A healthy store with empty tables. -/
def emptyDB : DB := { fault := none, tractInserts := [], zipInserts := [], cbsas := [] }

/-- Tract `k` of a test extract: geoid `k + 1`, every other field zero. -/
def sampleTract (k : Nat) : group_tracts.GroupTract := { (default : group_tracts.GroupTract) with Geoid10 := k + 1 }

/-- The first `n` tracts of the test extract, pairwise distinct. -/
def sampleTracts (n : Nat) : List group_tracts.GroupTract := (List.range n).map sampleTract

/-- Zip row `k` of a test mapping. -/
def sampleZip (k : Nat) : group_tracts.Zipcode := { ID := k + 1, Zipcode := ascii "94601", CBSA := 41860 + k }

/-- The first `n` rows of the test mapping, pairwise distinct. -/
def sampleZips (n : Nat) : List group_tracts.Zipcode := (List.range n).map sampleZip

end OpenNWI

/-! # Theorems -/

namespace OpenNWI

/-! ## strconv -/

theorem ParseUint_nil : ParseUint [] = (0, some NumError.ErrSyntax) := rfl

theorem ascii_pct20 : ascii "%20" = [37, 50, 48] := by decide

theorem ascii_json_ne_xml : ascii "json" ≠ ascii "xml" := by decide

/-- Reading further digits never lowers the value read so far. -/
theorem le_foldl_digits (cs : List UInt8) (n : Nat) :
    n ≤ cs.foldl (fun n c => n * 10 + (c.toNat - 48)) n := by
  induction cs generalizing n with
  | nil => simp
  | cons c cs ih =>
    simp only [List.foldl_cons]
    have h := ih (n * 10 + (c.toNat - 48))
    omega

/-- On digits whose value fits 64 bits the loop of `ParseUint` returns that value. -/
theorem parseUintLoop_digits (cs : List UInt8) (n : Nat)
    (hd : ∀ c ∈ cs, isDigit c)
    (hfit : cs.foldl (fun n c => n * 10 + (c.toNat - 48)) n ≤ maxUint64) :
    parseUintLoop cs n = (cs.foldl (fun n c => n * 10 + (c.toNat - 48)) n, none) := by
  induction cs generalizing n with
  | nil => simp [parseUintLoop]
  | cons c cs ih =>
    have hc : 48 ≤ c.toNat ∧ c.toNat ≤ 57 := hd c (List.mem_cons_self c cs)
    simp only [List.foldl_cons] at hfit ⊢
    have hmono := le_foldl_digits cs (n * 10 + (c.toNat - 48))
    have hle : n * 10 + (c.toNat - 48) ≤ maxUint64 := le_trans hmono hfit
    have hM : maxUint64 = 18446744073709551615 := by decide
    have h1 : ¬ (n ≥ maxUint64 / 10 + 1) := by rw [hM] at hle ⊢; omega
    have hmod : (n * 10 + (c.toNat - 48)) % 2 ^ 64 = n * 10 + (c.toNat - 48) := by
      apply Nat.mod_eq_of_lt
      rw [hM] at hle
      omega
    have h2 : ¬ ((n * 10 + (c.toNat - 48)) % 2 ^ 64 < n * 10
          ∨ (n * 10 + (c.toNat - 48)) % 2 ^ 64 > maxUint64) := by
      rw [hmod]; omega
    rw [parseUintLoop, if_pos hc, if_neg h1]
    simp only []
    rw [if_neg h2, hmod]
    exact ih _ (fun c hcm => hd c (List.mem_cons_of_mem _ hcm)) hfit

/-- Digits read after `n` give less than `(n + 1) * 10 ^ length`. -/
theorem foldl_digits_lt (cs : List UInt8) (n : Nat) (hd : ∀ c ∈ cs, isDigit c) :
    cs.foldl (fun n c => n * 10 + (c.toNat - 48)) n < (n + 1) * 10 ^ cs.length := by
  induction cs generalizing n with
  | nil => simp
  | cons c cs ih =>
    have hc : 48 ≤ c.toNat ∧ c.toNat ≤ 57 := hd c (List.mem_cons_self c cs)
    simp only [List.foldl_cons, List.length_cons]
    have h := ih (n * 10 + (c.toNat - 48)) (fun c hcm => hd c (List.mem_cons_of_mem _ hcm))
    have h3 : (n * 10 + (c.toNat - 48) + 1) * 10 ^ cs.length ≤ (n + 1) * 10 ^ (cs.length + 1) := by
      rw [pow_succ, ← mul_assoc, mul_comm ((n + 1) * 10 ^ cs.length) 10, ← mul_assoc]
      apply Nat.mul_le_mul_right
      omega
    omega

/-- A non-empty string of at most 19 digits parses to the number it denotes. -/
theorem ParseUint_digits (s : GoString) (hne : s ≠ []) (hlen : s.length ≤ 19)
    (hd : ∀ c ∈ s, isDigit c) : ParseUint s = (decimalValue s, none) := by
  have hlt := foldl_digits_lt s 0 hd
  have hpow : 10 ^ s.length ≤ 10 ^ 19 := Nat.pow_le_pow_right (by decide) hlen
  have hfit : s.foldl (fun n c => n * 10 + (c.toNat - 48)) 0 ≤ maxUint64 := by
    have hM : maxUint64 = 18446744073709551615 := by decide
    rw [hM]
    have : (10 : Nat) ^ 19 = 10000000000000000000 := by norm_num
    omega
  unfold ParseUint decimalValue
  rw [if_neg hne]
  exact parseUintLoop_digits s 0 hd hfit

/-- The value `ParseUint` returns next to an error: 0 with a syntax error, `maxUint64`
with a range error. -/
theorem parseUintLoop_error_value (cs : List UInt8) (n : Nat) (e : NumError)
    (h : (parseUintLoop cs n).2 = some e) :
    (e = NumError.ErrSyntax ∧ (parseUintLoop cs n).1 = 0)
      ∨ (e = NumError.ErrRange ∧ (parseUintLoop cs n).1 = maxUint64) := by
  induction cs generalizing n with
  | nil => simp [parseUintLoop] at h
  | cons c cs ih =>
    rw [parseUintLoop] at h ⊢
    by_cases hc : 48 ≤ c.toNat ∧ c.toNat ≤ 57
    · rw [if_pos hc] at h ⊢
      by_cases h1 : n ≥ maxUint64 / 10 + 1
      · rw [if_pos h1] at h ⊢
        right
        simp only [Option.some.injEq] at h
        exact ⟨h.symm, rfl⟩
      · rw [if_neg h1] at h ⊢
        simp only [] at h ⊢
        by_cases h2 : (n * 10 + (c.toNat - 48)) % 2 ^ 64 < n * 10
            ∨ (n * 10 + (c.toNat - 48)) % 2 ^ 64 > maxUint64
        · rw [if_pos h2] at h ⊢
          right
          simp only [Option.some.injEq] at h
          exact ⟨h.symm, rfl⟩
        · rw [if_neg h2] at h ⊢
          exact ih _ h
    · rw [if_neg hc] at h ⊢
      left
      simp only [Option.some.injEq] at h
      exact ⟨h.symm, rfl⟩

theorem ParseUint_error_value (s : GoString) (e : NumError) (h : (ParseUint s).2 = some e) :
    (e = NumError.ErrSyntax ∧ (ParseUint s).1 = 0)
      ∨ (e = NumError.ErrRange ∧ (ParseUint s).1 = maxUint64) := by
  unfold ParseUint at h ⊢
  by_cases hs : s = []
  · rw [if_pos hs] at h ⊢
    left
    simp only [Option.some.injEq] at h
    exact ⟨h.symm, rfl⟩
  · rw [if_neg hs] at h ⊢
    exact parseUintLoop_error_value s 0 e h

end OpenNWI

namespace OpenNWI.api

/-! ## Address mode: geoid truncation -/

theorem ReplaceAll_ne_nil (s : GoString) (hs : s ≠ []) : ReplaceAll s 32 (ascii "%20") ≠ [] := by
  cases s with
  | nil => exact absurd rfl hs
  | cons c cs =>
    unfold ReplaceAll
    rw [List.flatMap_cons, ascii_pct20]
    by_cases hc : c = 32
    · simp [hc]
    · simp [hc]

/-- On a first match with a first block of at least three bytes `getGeoid` returns the
block geoid without its last three bytes. -/
theorem getGeoid_first_block (geocode : GoString → GeocoderReply) (address : GoString)
    (r : serializers.GeoCodingResult) (m : serializers.AddressMatch)
    (ms : List serializers.AddressMatch) (b : serializers.CensusBlock)
    (bs : List serializers.CensusBlock)
    (hreply : geocode address = GeocoderReply.decoded r)
    (hm : r.Result.AddressMatches = m :: ms) (hb : m.Geographies.CensusBlocks = b :: bs)
    (hlen : 3 ≤ b.Geoid.length) :
    getGeoid geocode address = Except.ok (b.Geoid.take (b.Geoid.length - 3), none) := by
  have h3 : ¬ (b.Geoid.length < 3) := by omega
  have hs : 0 ≤ b.Geoid.length - 3 ∧ b.Geoid.length - 3 ≤ b.Geoid.length := by omega
  simp only [getGeoid, hreply, hm, hb, if_neg h3, slice, if_pos hs, List.drop_zero]

theorem getGeoid_geocodeBlock (s address : GoString) (hlen : 3 ≤ s.length) :
    getGeoid (geocodeBlock s) address = Except.ok (s.take (s.length - 3), none) :=
  getGeoid_first_block (geocodeBlock s) address _ _ [] { Geoid := s } [] rfl rfl rfl hlen

/-- When the geocoder finds no match `getGeoid` returns the empty string and no error. -/
theorem getGeoid_no_match (geocode : GoString → GeocoderReply) (address : GoString)
    (r : serializers.GeoCodingResult)
    (hreply : geocode address = GeocoderReply.decoded r)
    (hnone : r.Result.AddressMatches = []) :
    getGeoid geocode address = Except.ok ([], none) := by
  simp only [getGeoid, hreply, hnone]

/-- Address mode when `getGeoid` returned `res` without an error and `res` does not
parse: the request is aborted with 404 and nothing is rendered. -/
theorem GetScores_parse_error (h : handler) (geocode : GoString → GeocoderReply) (req : Request)
    (res : GoString) (e : NumError) (haddr : req.address ≠ [])
    (hg : getGeoid geocode (ReplaceAll req.address 32 (ascii "%20")) = Except.ok (res, none))
    (hp : (ParseUint res).2 = some e) :
    GetScores h geocode req Context.fresh
      = Except.ok { status := StatusNotFound, written := true, aborted := true,
                    Errors := [Error.num e res], body := [] } := by
  have hne := ReplaceAll_ne_nil req.address haddr
  unfold GetScores
  simp only []
  rw [if_pos hne, hg]
  simp only []
  rcases hpu : ParseUint res with ⟨v, err⟩
  rw [hpu] at hp
  simp only at hp
  subst hp
  rfl

end OpenNWI.api

namespace OpenNWI

/-! ## Batch loader -/

theorem sampleTracts_length (n : Nat) : (sampleTracts n).length = n := by
  simp [sampleTracts]

theorem sampleZips_length (n : Nat) : (sampleZips n).length = n := by
  simp [sampleZips]

/-- Once at most `RANGE` entities remain from index `i` on, the tract loop inserts
nothing more. -/
theorem repopulateLoop_tail (db : DB) (res : List group_tracts.GroupTract) (i : Nat)
    (h : res.length ≤ i + RANGE) : repopulateLoop db res i = Except.ok db := by
  have h1 : ¬ (i + RANGE < res.length) := by omega
  have h2 : ¬ (i + RANGE < res.length) := h1
  rw [repopulateLoop]
  by_cases h0 : i < res.length
  · rw [if_pos h0, if_neg h1, repopulateLoop, if_neg h2]
  · rw [if_neg h0]

/-- Once at most `RANGE` rows remain from index `i` on, the zip loop inserts nothing
more. -/
theorem zipLoop_tail (db : DB) (zipcodes : List group_tracts.Zipcode) (i : Nat)
    (h : zipcodes.length ≤ i + RANGE) : zipLoop db zipcodes i = Except.ok db := by
  have h1 : ¬ (i + RANGE < zipcodes.length) := by omega
  have h2 : ¬ (i + RANGE < zipcodes.length) := h1
  rw [zipLoop]
  by_cases h0 : i < zipcodes.length
  · rw [if_pos h0, if_neg h1, zipLoop, if_neg h2]
  · rw [if_neg h0]

/-- While more than `RANGE` entities remain from index `i` on, the tract loop inserts
the slice `res[i : i + RANGE]` with one call and moves on. -/
theorem repopulateLoop_step (db : DB) (res : List group_tracts.GroupTract) (i : Nat)
    (hdb : db.fault = none) (h : i + RANGE < res.length) :
    repopulateLoop db res i
      = repopulateLoop
          { db with tractInserts := db.tractInserts ++ [(res.take (i + RANGE)).drop i] }
          res (i + RANGE) := by
  have h0 : i < res.length := by omega
  have hs : i ≤ i + RANGE ∧ i + RANGE ≤ res.length := by omega
  rw [repopulateLoop, if_pos h0, if_pos h]
  simp only [crete_entry, slice, if_pos hs, DB.CreateTracts, hdb]

/-- While more than `RANGE` rows remain from index `i` on, the zip loop inserts the
slice `zipcodes[i : i + RANGE]` with one call and moves on. -/
theorem zipLoop_step (db : DB) (zipcodes : List group_tracts.Zipcode) (i : Nat)
    (hdb : db.fault = none) (h : i + RANGE < zipcodes.length) :
    zipLoop db zipcodes i
      = zipLoop
          { db with zipInserts := db.zipInserts ++ [(zipcodes.take (i + RANGE)).drop i] }
          zipcodes (i + RANGE) := by
  have h0 : i < zipcodes.length := by omega
  have hs : i ≤ i + RANGE ∧ i + RANGE ≤ zipcodes.length := by omega
  rw [zipLoop, if_pos h0, if_pos h]
  simp only [crete_zipcode_entry, slice, if_pos hs, DB.CreateZipcodes, hdb]

/-- With exactly 500 tracts the tract loader returns without a single insert. -/
theorem repopulate_exact_batch (db : DB) (res : List group_tracts.GroupTract)
    (hlen : res.length = 500) : repopulateGroupTracts db none res = Except.ok db := by
  have h := repopulateLoop_tail db res 0 (by simp only [RANGE]; omega)
  simp [repopulateGroupTracts, h, hlen, RANGE]

/-- With exactly 1000 tracts the tract loader inserts the first 500 and nothing else. -/
theorem repopulate_two_batches (db : DB) (res : List group_tracts.GroupTract)
    (hdb : db.fault = none) (hlen : res.length = 1000) :
    repopulateGroupTracts db none res
      = Except.ok { db with tractInserts := db.tractInserts ++ [res.take 500] } := by
  have h1 := repopulateLoop_step db res 0 hdb (by simp only [RANGE]; omega)
  have h2 := repopulateLoop_tail
    { db with tractInserts := db.tractInserts ++ [(res.take (0 + RANGE)).drop 0] }
    res (0 + RANGE) (by simp only [RANGE]; omega)
  unfold repopulateGroupTracts
  simp only [h1, h2]
  simp [hlen, RANGE]

/-- With at most 500 rows the zip loader returns without a single insert. -/
theorem createZipToCBSA_small (db : DB) (zipcodes : List group_tracts.Zipcode)
    (hlen : zipcodes.length ≤ 500) : createZipToCBSA db zipcodes = Except.ok db :=
  zipLoop_tail db zipcodes 0 (by simp only [RANGE]; omega)

/-- With more than 500 and at most 1000 rows the zip loader inserts the first 500 and
nothing else. -/
theorem createZipToCBSA_one_batch (db : DB) (zipcodes : List group_tracts.Zipcode)
    (hdb : db.fault = none) (hlo : 500 < zipcodes.length) (hhi : zipcodes.length ≤ 1000) :
    createZipToCBSA db zipcodes
      = Except.ok { db with zipInserts := db.zipInserts ++ [zipcodes.take 500] } := by
  have h1 := zipLoop_step db zipcodes 0 hdb (by simp only [RANGE]; omega)
  have h2 := zipLoop_tail
    { db with zipInserts := db.zipInserts ++ [(zipcodes.take (0 + RANGE)).drop 0] }
    zipcodes (0 + RANGE) (by simp only [RANGE]; omega)
  unfold createZipToCBSA
  rw [h1, h2]
  simp [RANGE]

/-- C1: at the failing input of 500 tracts (one full batch) the claim asks for
`ceil(500/500) = 1` bulk insert holding all 500 tracts, and `repopulateGroupTracts`
issues none; at 1000 tracts the claim asks for two inserts and the loader issues one,
holding only the first 500 tracts. -/
theorem C1_full_last_batch_is_never_inserted :
    (sampleTracts 500).length = 500
      ∧ repopulateGroupTracts emptyDB none (sampleTracts 500) = Except.ok emptyDB
      ∧ emptyDB.tractInserts = []
      ∧ (sampleTracts 1000).length = 1000
      ∧ repopulateGroupTracts emptyDB none (sampleTracts 1000)
          = Except.ok { emptyDB with tractInserts := [sampleTracts 500] } := by
  refine ⟨sampleTracts_length 500, repopulate_exact_batch _ _ (sampleTracts_length 500), rfl,
    sampleTracts_length 1000, ?_⟩
  rw [repopulate_two_batches _ _ rfl (sampleTracts_length 1000)]
  simp [emptyDB, sampleTracts, ← List.map_take, List.take_range]

/-- C2: at the failing input of a single zip row the claim asks for one final insert
holding that row, and `createZipToCBSA` issues none; at 700 rows it inserts the first
500 and never the remaining 200. -/
theorem C2_remainder_is_never_inserted :
    (sampleZips 1).length = 1
      ∧ createZipToCBSA emptyDB (sampleZips 1) = Except.ok emptyDB
      ∧ emptyDB.zipInserts = []
      ∧ (sampleZips 700).length = 700
      ∧ createZipToCBSA emptyDB (sampleZips 700)
          = Except.ok { emptyDB with zipInserts := [sampleZips 500] } := by
  refine ⟨sampleZips_length 1, createZipToCBSA_small _ _ (by rw [sampleZips_length]; omega), rfl,
    sampleZips_length 700, ?_⟩
  rw [createZipToCBSA_one_batch _ _ rfl (by rw [sampleZips_length]; omega)
    (by rw [sampleZips_length]; omega)]
  simp [emptyDB, sampleZips, ← List.map_take, List.take_range]

end OpenNWI

namespace OpenNWI.api

/-! ## Address mode: the claims -/

/-- C3 (counterexample): for the 11-digit block geoid `12345678901`, `getGeoid` followed
by `ParseUint` yields 12345678, while parsing the first 10 digits yields 1234567890. -/
theorem C3_first_ten_digits_counterexample :
    (ascii "12345678901").length = 11
      ∧ (∀ c ∈ ascii "12345678901", isDigit c)
      ∧ (getGeoid (geocodeBlock (ascii "12345678901")) (ascii "1%20Main%20St")).map
            (fun r => ParseUint r.1) = Except.ok (12345678, none)
      ∧ ParseUint ((ascii "12345678901").take 10) = (1234567890, none) := by
  refine ⟨by decide, by decide, rfl, by decide⟩

/-- C3 (amended): for every 11-digit block geoid returned as the first geocoder match,
the truncation of `getGeoid` followed by the `ParseUint` of `GetScores` yields what
parsing the first 8 digits yields (the last three bytes are dropped), and that is the
number those 8 digits denote, without an error. -/
theorem C3_truncation_parses_first_eight_digits (s address : GoString)
    (hlen : s.length = 11) (hd : ∀ c ∈ s, isDigit c) :
    (getGeoid (geocodeBlock s) address).map (fun r => ParseUint r.1)
        = Except.ok (ParseUint (s.take 8))
      ∧ ParseUint (s.take 8) = (decimalValue (s.take 8), none) := by
  constructor
  · rw [getGeoid_geocodeBlock s address (by omega), hlen]
    rfl
  · apply ParseUint_digits
    · intro h
      have hl : (s.take 8).length = 8 := by rw [List.length_take]; omega
      rw [h] at hl
      simp at hl
    · rw [List.length_take]; omega
    · intro c hc
      exact hd c (List.mem_of_mem_take hc)

/-- C3 (witness): the amended statement at the block geoid `12345678901`. -/
theorem C3_truncation_parses_first_eight_digits_witness :
    (ascii "12345678901").length = 11
      ∧ (∀ c ∈ ascii "12345678901", isDigit c)
      ∧ ((getGeoid (geocodeBlock (ascii "12345678901")) (ascii "1%20Main%20St")).map
            (fun r => ParseUint r.1) = Except.ok (ParseUint ((ascii "12345678901").take 8))
          ∧ ParseUint ((ascii "12345678901").take 8)
              = (decimalValue ((ascii "12345678901").take 8), none)) :=
  ⟨by decide, by decide,
    C3_truncation_parses_first_eight_digits (ascii "12345678901") (ascii "1%20Main%20St")
      (by decide) (by decide)⟩

/-- C4 (counterexample): the geocoder returns the block geoid `060014001001`; the
string left by the truncation, `060014001`, has 9 bytes, fewer than 10, and yet
`GetScores` takes 60014001 as the geoid and answers 200 with the score stored there. -/
theorem C4_short_residual_counterexample :
    ((ascii "060014001001").take ((ascii "060014001001").length - 3)).length = 9
      ∧ getGeoid (geocodeBlock (ascii "060014001001")) (ascii "1%20Main%20St")
          = Except.ok (ascii "060014001", none)
      ∧ ParseUint (ascii "060014001") = (60014001, none)
      ∧ GetScores sampleHandler (geocodeBlock (ascii "060014001001"))
            { address := ascii "1 Main St", format := ascii "json", zipcode := [],
              limit := [], offset := [] } Context.fresh
          = Except.ok
              { status := 200, written := true, aborted := false, Errors := [],
                body := [Payload.addressScore
                  { Geoid := 60014001, NWI := 55, SearchedAddress := ascii "1 Main St",
                    RegionalTransitUsagePercentage := 1, RegionalTransitUsage := 10,
                    RegionalBikeRidership := 5, Format := ascii "json" }] } := by
  refine ⟨by decide, rfl, by decide, rfl⟩

/-- C4 (amended): when the first geocoder match carries a block geoid of at least three
bytes, `getGeoid` returns that geoid without its last three bytes and no error; if this
residual does not parse as an unsigned 64-bit integer, `GetScores` aborts the request
with 404, records the parse error and renders nothing; and there is no width check: a
residual of 1 to 19 digits, also one of fewer than 10, parses to the number it
denotes. -/
theorem C4_unparseable_residual_is_rejected (h : handler) (geocode : GoString → GeocoderReply)
    (req : Request) (r : serializers.GeoCodingResult) (m : serializers.AddressMatch)
    (ms : List serializers.AddressMatch) (b : serializers.CensusBlock)
    (bs : List serializers.CensusBlock)
    (haddr : req.address ≠ [])
    (hreply : geocode (ReplaceAll req.address 32 (ascii "%20")) = GeocoderReply.decoded r)
    (hm : r.Result.AddressMatches = m :: ms) (hb : m.Geographies.CensusBlocks = b :: bs)
    (hlen : 3 ≤ b.Geoid.length) :
    getGeoid geocode (ReplaceAll req.address 32 (ascii "%20"))
        = Except.ok (b.Geoid.take (b.Geoid.length - 3), none)
      ∧ (∀ e, (ParseUint (b.Geoid.take (b.Geoid.length - 3))).2 = some e →
          GetScores h geocode req Context.fresh
            = Except.ok { status := StatusNotFound, written := true, aborted := true,
                          Errors := [Error.num e (b.Geoid.take (b.Geoid.length - 3))],
                          body := [] })
      ∧ (b.Geoid.take (b.Geoid.length - 3) ≠ [] →
          (b.Geoid.take (b.Geoid.length - 3)).length ≤ 19 →
          (∀ c ∈ b.Geoid.take (b.Geoid.length - 3), isDigit c) →
          ParseUint (b.Geoid.take (b.Geoid.length - 3))
            = (decimalValue (b.Geoid.take (b.Geoid.length - 3)), none)) := by
  have hg := getGeoid_first_block geocode _ r m ms b bs hreply hm hb hlen
  refine ⟨hg, ?_, ?_⟩
  · intro e he
    exact GetScores_parse_error h geocode req _ e haddr hg he
  · intro hne hl hd
    exact ParseUint_digits _ hne hl hd

/-- C4 (witness): the block geoid `06001A001001` leaves `06001A001`, which does not
parse; the address request is answered with 404 and nothing is rendered. -/
theorem C4_unparseable_residual_is_rejected_witness :
    sampleAddressRequest.address ≠ []
      ∧ 3 ≤ (ascii "06001A001001").length
      ∧ (ParseUint (ascii "06001A001")).2 = some NumError.ErrSyntax
      ∧ GetScores sampleHandler (geocodeBlock (ascii "06001A001001")) sampleAddressRequest
            Context.fresh
          = Except.ok { status := StatusNotFound, written := true, aborted := true,
                        Errors := [Error.num NumError.ErrSyntax (ascii "06001A001")],
                        body := [] } :=
  ⟨by decide, by decide, by decide,
    (C4_unparseable_residual_is_rejected sampleHandler (geocodeBlock (ascii "06001A001001"))
      sampleAddressRequest _ _ [] { Geoid := ascii "06001A001001" } []
      (by decide) rfl rfl rfl (by decide)).2.1 NumError.ErrSyntax (by decide)⟩

/-- C8: in address mode, when the geocoder reports no address match, `getGeoid` returns
the empty string without an error and `GetScores`, whatever the store and the format,
answers 404, aborts, records the parse error of the empty string, and renders no score
result. -/
theorem C8_unmatched_address_is_not_found (h : handler) (geocode : GoString → GeocoderReply)
    (req : Request) (r : serializers.GeoCodingResult)
    (haddr : req.address ≠ [])
    (hreply : geocode (ReplaceAll req.address 32 (ascii "%20")) = GeocoderReply.decoded r)
    (hnone : r.Result.AddressMatches = []) :
    getGeoid geocode (ReplaceAll req.address 32 (ascii "%20")) = Except.ok ([], none)
      ∧ GetScores h geocode req Context.fresh
          = Except.ok { status := StatusNotFound, written := true, aborted := true,
                        Errors := [Error.num NumError.ErrSyntax []], body := [] } := by
  have hg := getGeoid_no_match geocode _ r hreply hnone
  exact ⟨hg, GetScores_parse_error h geocode req [] NumError.ErrSyntax haddr hg rfl⟩

/-- C8 (witness): an address request against a geocoder without a match. -/
theorem C8_unmatched_address_is_not_found_witness :
    sampleAddressRequest.address ≠ []
      ∧ (getGeoid geocodeNoMatch (ReplaceAll sampleAddressRequest.address 32 (ascii "%20"))
          = Except.ok ([], none)
        ∧ GetScores sampleHandler geocodeNoMatch sampleAddressRequest Context.fresh
          = Except.ok { status := StatusNotFound, written := true, aborted := true,
                        Errors := [Error.num NumError.ErrSyntax []], body := [] }) :=
  ⟨by decide,
    C8_unmatched_address_is_not_found sampleHandler geocodeNoMatch sampleAddressRequest
      { Result := { AddressMatches := [] } } (by decide) rfl rfl⟩

/-- C6: at the failing input, a listing request (no address) with `format=csv`, the
claim asks for a 400 answer, and `GetScores` returns with the context untouched: status
200, header not written, not aborted, no error recorded, nothing rendered.  In address
mode the same format is answered with 400 after a successful lookup. -/
theorem C6_listing_mode_ignores_unknown_format :
    GetScores sampleHandler geocodeNoMatch
        { address := [], format := ascii "csv", zipcode := [], limit := [], offset := [] }
        Context.fresh
      = Except.ok { status := 200, written := false, aborted := false, Errors := [], body := [] }
    ∧ GetScores sampleHandler (geocodeBlock (ascii "060014001001"))
        { address := ascii "1 Main St", format := ascii "csv", zipcode := [],
          limit := [], offset := [] } Context.fresh
      = Except.ok { status := StatusBadRequest, written := true, aborted := true,
                    Errors := [Error.unknownParameter (ascii "csv")], body := [] } :=
  ⟨rfl, rfl⟩

end OpenNWI.api

namespace OpenNWI

/-! ## Enrichment pass -/

/-- A saved value never changes the primary key of the row it replaces. -/
theorem savedRow_key (saved : List group_tracts.CBSA) (row : group_tracts.CBSA) :
    (savedRow saved row).ID = row.ID ∧ (savedRow saved row).CBSA = row.CBSA := by
  induction saved generalizing row with
  | nil => exact ⟨rfl, rfl⟩
  | cons c rest ih =>
    unfold savedRow
    rw [List.foldl_cons]
    by_cases hk : row.ID = c.ID ∧ row.CBSA = c.CBSA
    · rw [if_pos hk]
      have h := ih c
      unfold savedRow at h
      exact ⟨h.1.trans hk.1.symm, h.2.trans hk.2.symm⟩
    · rw [if_neg hk]
      exact ih row

/-- A row whose code no saved value carries is left as it is. -/
theorem savedRow_other (saved : List group_tracts.CBSA) (row : group_tracts.CBSA)
    (h : ∀ c ∈ saved, c.CBSA ≠ row.CBSA) : savedRow saved row = row := by
  induction saved generalizing row with
  | nil => rfl
  | cons c rest ih =>
    unfold savedRow
    rw [List.foldl_cons]
    have hk : ¬ (row.ID = c.ID ∧ row.CBSA = c.CBSA) :=
      fun hk => h c (List.mem_cons_self c rest) hk.2.symm
    rw [if_neg hk]
    exact ih row (fun c' hc' => h c' (List.mem_cons_of_mem _ hc'))

/-- A property of all saved values holds of a row afterwards when it held before or
when one of the saved values carries the row's primary key. -/
theorem savedRow_property (Q : group_tracts.CBSA → Prop) (saved : List group_tracts.CBSA)
    (row : group_tracts.CBSA) (hQ : ∀ c ∈ saved, Q c)
    (h : Q row ∨ ∃ c ∈ saved, row.ID = c.ID ∧ row.CBSA = c.CBSA) :
    Q (savedRow saved row) := by
  induction saved generalizing row with
  | nil =>
    rcases h with h | ⟨c, hc, _⟩
    · exact h
    · exact absurd hc (List.not_mem_nil c)
  | cons c rest ih =>
    unfold savedRow
    rw [List.foldl_cons]
    have hQrest : ∀ c' ∈ rest, Q c' := fun c' hc' => hQ c' (List.mem_cons_of_mem _ hc')
    by_cases hk : row.ID = c.ID ∧ row.CBSA = c.CBSA
    · rw [if_pos hk]
      exact ih c hQrest (Or.inl (hQ c (List.mem_cons_self c rest)))
    · rw [if_neg hk]
      refine ih row hQrest ?_
      rcases h with h | ⟨c', hc', hk'⟩
      · exact Or.inl h
      · rcases List.mem_cons.mp hc' with heq | hmem
        · exact absurd (heq ▸ hk') hk
        · exact Or.inr ⟨c', hmem, hk'⟩

/-- On an available store, saving values whose primary keys are all in the table
rewrites the table row by row. -/
theorem foldl_SaveCBSA (saved : List group_tracts.CBSA) (db : DB) (hdb : db.fault = none)
    (hkeys : ∀ c ∈ saved, ∃ r ∈ db.cbsas, r.ID = c.ID ∧ r.CBSA = c.CBSA) :
    saved.foldl (fun d c => d.SaveCBSA c) db
      = { db with cbsas := db.cbsas.map (savedRow saved) } := by
  induction saved generalizing db with
  | nil =>
    have hid : savedRow [] = id := by funext r; rfl
    simp [hid]
  | cons c rest ih =>
    rw [List.foldl_cons]
    obtain ⟨r0, hr0, hk0⟩ := hkeys c (List.mem_cons_self c rest)
    have hany : db.cbsas.any (fun r => decide (r.ID = c.ID ∧ r.CBSA = c.CBSA)) = true := by
      rw [List.any_eq_true]
      exact ⟨r0, hr0, by simpa using hk0⟩
    have hsave : db.SaveCBSA c
        = { db with
            cbsas := db.cbsas.map (fun r => if r.ID = c.ID ∧ r.CBSA = c.CBSA then c else r) } := by
      unfold DB.SaveCBSA
      rw [hdb]
      simp only [hany, if_true]
    rw [hsave]
    have hkeys1 : ∀ c1 ∈ rest, ∃ r ∈ (db.cbsas.map
        (fun r => if r.ID = c.ID ∧ r.CBSA = c.CBSA then c else r)),
        r.ID = c1.ID ∧ r.CBSA = c1.CBSA := by
      intro c1 hc1
      obtain ⟨r, hr, hk⟩ := hkeys c1 (List.mem_cons_of_mem _ hc1)
      refine ⟨if r.ID = c.ID ∧ r.CBSA = c.CBSA then c else r, ?_, ?_⟩
      · exact List.mem_map.mpr ⟨r, hr, rfl⟩
      · by_cases hrc : r.ID = c.ID ∧ r.CBSA = c.CBSA
        · rw [if_pos hrc]
          exact ⟨hrc.1.symm.trans hk.1, hrc.2.symm.trans hk.2⟩
        · rw [if_neg hrc]
          exact hk
    have hih := ih
      { db with
        cbsas := db.cbsas.map (fun r => if r.ID = c.ID ∧ r.CBSA = c.CBSA then c else r) }
      hdb hkeys1
    rw [hih]
    simp only [List.map_map]
    rfl

/-- The effect of the inner save loop on an available store, for any update `upd` of
the found rows that keeps their primary key: every table row whose code matches ends
with the property all updated rows share, every other row is untouched. -/
theorem save_found_rows (sqlEq : GoString → Nat → Bool) (key : GoString) (db : DB)
    (hdb : db.fault = none) (upd : group_tracts.CBSA → group_tracts.CBSA)
    (Q : group_tracts.CBSA → Prop)
    (hupd : ∀ c, (upd c).ID = c.ID ∧ (upd c).CBSA = c.CBSA) (hQ : ∀ c, Q (upd c)) :
    ∃ db1 : DB,
      (db.cbsas.filter (fun r => sqlEq key r.CBSA)).foldl (fun d c => d.SaveCBSA (upd c)) db = db1
        ∧ db1.fault = none
        ∧ db1.cbsas.length = db.cbsas.length
        ∧ ∀ (i : Nat) (r : group_tracts.CBSA), db.cbsas[i]? = some r →
            ∃ r1, db1.cbsas[i]? = some r1
              ∧ r1.ID = r.ID ∧ r1.CBSA = r.CBSA
              ∧ (sqlEq key r.CBSA = true → Q r1)
              ∧ (sqlEq key r.CBSA = false → r1 = r) := by
  have hfold : (db.cbsas.filter (fun r => sqlEq key r.CBSA)).foldl
        (fun d c => d.SaveCBSA (upd c)) db
      = ((db.cbsas.filter (fun r => sqlEq key r.CBSA)).map upd).foldl
          (fun d c => d.SaveCBSA c) db := by
    rw [List.foldl_map]
  have hmem : ∀ c ∈ (db.cbsas.filter (fun r => sqlEq key r.CBSA)).map upd,
      ∃ r ∈ db.cbsas, sqlEq key r.CBSA = true ∧ c = upd r := by
    intro c hc
    obtain ⟨r, hr, hrc⟩ := List.mem_map.mp hc
    have hr2 := List.mem_filter.mp hr
    exact ⟨r, hr2.1, hr2.2, hrc.symm⟩
  have hkeys : ∀ c ∈ (db.cbsas.filter (fun r => sqlEq key r.CBSA)).map upd,
      ∃ r ∈ db.cbsas, r.ID = c.ID ∧ r.CBSA = c.CBSA := by
    intro c hc
    obtain ⟨r, hr, _, hrc⟩ := hmem c hc
    exact ⟨r, hr, by rw [hrc]; exact ⟨(hupd r).1.symm, (hupd r).2.symm⟩⟩
  refine ⟨_, rfl, ?_, ?_, ?_⟩
  · rw [hfold, foldl_SaveCBSA _ db hdb hkeys]
    exact hdb
  · rw [hfold, foldl_SaveCBSA _ db hdb hkeys]
    simp
  · intro i r hir
    rw [hfold, foldl_SaveCBSA _ db hdb hkeys]
    refine ⟨savedRow ((db.cbsas.filter (fun r => sqlEq key r.CBSA)).map upd) r, ?_, ?_, ?_, ?_, ?_⟩
    · simp [List.getElem?_map, hir]
    · exact (savedRow_key _ r).1
    · exact (savedRow_key _ r).2
    · intro hmatch
      apply savedRow_property Q
      · intro c hc
        obtain ⟨r', _, _, hrc⟩ := hmem c hc
        rw [hrc]
        exact hQ r'
      · right
        have hrmem : r ∈ db.cbsas := List.getElem?_mem hir
        refine ⟨upd r, List.mem_map.mpr ⟨r, List.mem_filter.mpr ⟨hrmem, hmatch⟩, rfl⟩, ?_⟩
        exact ⟨(hupd r).1.symm, (hupd r).2.symm⟩
    · intro hno
      apply savedRow_other
      intro c hc hcode
      obtain ⟨r', _, hmatch, hrc⟩ := hmem c hc
      rw [hrc, (hupd r').2] at hcode
      rw [hcode, hno] at hmatch
      exact Bool.noConfusion hmatch

end OpenNWI

namespace OpenNWI

/-- The record loop goes on with the next record whenever its body returns. -/
theorem recordLoop_cons (body : DB → List GoString → Except Halt (DB × List Error))
    (record : List GoString) (rest : List (List GoString)) (db db1 : DB)
    (printed lines : List Error) (h : body db record = Except.ok (db1, lines)) :
    recordLoop body (record :: rest) (db, printed)
      = recordLoop body rest (db1, printed ++ lines) := by
  rw [recordLoop, h]

/-- The body of the bike-ridership loop on a record whose field does not parse. -/
theorem bikeRecord_bad_field (sqlEq : GoString → Nat → Bool) (db : DB) (hdb : db.fault = none)
    (record : List GoString) (key field : GoString) (e : NumError)
    (hkey : record[3]? = some key) (hfield : record[2]? = some field)
    (hbad : (ParseUint field).2 = some e) :
    ∃ db1 : DB,
      bikeRecord sqlEq db record = Except.ok (db1, [Error.num e field])
        ∧ db1.cbsas.length = db.cbsas.length
        ∧ ∀ (i : Nat) (r : group_tracts.CBSA), db.cbsas[i]? = some r →
            ∃ r1, db1.cbsas[i]? = some r1
              ∧ (sqlEq key r.CBSA = true → r1.BikeRidership = (ParseUint field).1)
              ∧ (sqlEq key r.CBSA = false → r1 = r) := by
  obtain ⟨db1, hfold, _, hlen, hrows⟩ := save_found_rows sqlEq key db hdb
    (fun c => { c with BikeRidership := (ParseUint field).1 })
    (fun c => c.BikeRidership = (ParseUint field).1)
    (fun _ => ⟨rfl, rfl⟩) (fun _ => rfl)
  refine ⟨db1, ?_, hlen, ?_⟩
  · rcases hp : ParseUint field with ⟨usage, err⟩
    rw [hp] at hbad hfold
    simp only at hbad hfold
    subst hbad
    simp only [bikeRecord, hkey, hfield, DB.FindCBSAs, hdb, hp, saveBikeRidership, hfold]
  · intro i r hir
    obtain ⟨r1, h1, _, _, hyes, hno⟩ := hrows i r hir
    exact ⟨r1, h1, hyes, hno⟩

/-- The body of the transit-usage loop on a record whose field does not parse. -/
theorem transitRecord_bad_field (sqlEq : GoString → Nat → Bool)
    (ParseFloat : GoString → Float64 × Option NumError) (db : DB) (hdb : db.fault = none)
    (record : List GoString) (key field : GoString) (e : NumError)
    (hkey : record[4]? = some key) (hfield : record[2]? = some field)
    (hbad : (ParseFloat field).2 = some e) :
    ∃ db1 : DB,
      transitRecord sqlEq ParseFloat db record = Except.ok (db1, [Error.num e field])
        ∧ db1.cbsas.length = db.cbsas.length
        ∧ ∀ (i : Nat) (r : group_tracts.CBSA), db.cbsas[i]? = some r →
            ∃ r1, db1.cbsas[i]? = some r1
              ∧ (sqlEq key r.CBSA = true → r1.PublicTansitUsage = (ParseFloat field).1)
              ∧ (sqlEq key r.CBSA = false → r1 = r) := by
  obtain ⟨db1, hfold, _, hlen, hrows⟩ := save_found_rows sqlEq key db hdb
    (fun c => { c with PublicTansitUsage := (ParseFloat field).1 })
    (fun c => c.PublicTansitUsage = (ParseFloat field).1)
    (fun _ => ⟨rfl, rfl⟩) (fun _ => rfl)
  refine ⟨db1, ?_, hlen, ?_⟩
  · rcases hp : ParseFloat field with ⟨usage, err⟩
    rw [hp] at hbad hfold
    simp only at hbad hfold
    subst hbad
    simp only [transitRecord, hkey, hfield, DB.FindCBSAs, hdb, hp, saveTransitUsage, hfold]
  · intro i r hir
    obtain ⟨r1, h1, _, _, hyes, hno⟩ := hrows i r hir
    exact ⟨r1, h1, hyes, hno⟩

/-- C7 (counterexample): the bike extract holds one record for CBSA 41860 whose
ridership field is `n/a`.  `addBikeRidership` does not abort and prints the parse error,
but the row of CBSA 41860, which held a ridership of 30000, ends with 0; the record is
not skipped. -/
theorem C7_bad_field_counterexample :
    (ParseUint (ascii "n/a")).2 = some NumError.ErrSyntax
      ∧ sampleDB.cbsas.map (fun r => (r.CBSA, r.BikeRidership)) = [(41860, 30000), (41940, 9000)]
      ∧ addBikeRidership decimalEq sampleDB none
            [[ascii "2019", ascii "San Francisco-Oakland", ascii "n/a", ascii "41860"]]
          = Except.ok
              ({ sampleDB with
                  cbsas :=
                    [ { ID := 1, Geoid := 6001400100, CBSA := 41860,
                        CBSA_name := ascii "San Francisco-Oakland",
                        PublicTansitUsage := 400000, BikeRidership := 0 },
                      { ID := 2, Geoid := 6085500100, CBSA := 41940,
                        CBSA_name := ascii "San Jose-Sunnyvale",
                        PublicTansitUsage := 40000, BikeRidership := 9000 } ] },
                [Error.num NumError.ErrSyntax (ascii "n/a")]) := by
  refine ⟨by decide, by decide, rfl⟩

/-- C7 (amended): on an available store, a record of the bike-ridership (resp.
transit-usage) extract whose numeric field does not parse does not abort the pass: the
loop body returns, prints the parse error, and the loop goes on with the next record.
The record is not skipped: every CBSA row whose code matches the record ends with the
value the failed parse returned as its ridership (resp. usage), which for `ParseUint` is
0 or the largest `uint64`; every row whose code does not match is left as it was. -/
theorem C7_bad_field_overwrites_matching_rows (sqlEq : GoString → Nat → Bool)
    (ParseFloat : GoString → Float64 × Option NumError) (db : DB) (hdb : db.fault = none)
    (record : List GoString) (key field : GoString) (e : NumError)
    (hkey : record[3]? = some key) (hfield : record[2]? = some field)
    (hbad : (ParseUint field).2 = some e)
    (trecord : List GoString) (tkey tfield : GoString) (te : NumError)
    (htkey : trecord[4]? = some tkey) (htfield : trecord[2]? = some tfield)
    (htbad : (ParseFloat tfield).2 = some te) :
    (∃ db1 : DB,
      bikeRecord sqlEq db record = Except.ok (db1, [Error.num e field])
        ∧ (∀ rest printed, recordLoop (bikeRecord sqlEq) (record :: rest) (db, printed)
            = recordLoop (bikeRecord sqlEq) rest (db1, printed ++ [Error.num e field]))
        ∧ db1.cbsas.length = db.cbsas.length
        ∧ ∀ (i : Nat) (r : group_tracts.CBSA), db.cbsas[i]? = some r →
            ∃ r1, db1.cbsas[i]? = some r1
              ∧ (sqlEq key r.CBSA = true → r1.BikeRidership = (ParseUint field).1)
              ∧ (sqlEq key r.CBSA = false → r1 = r))
    ∧ ((ParseUint field).1 = 0 ∨ (ParseUint field).1 = maxUint64)
    ∧ (∃ db1 : DB,
      transitRecord sqlEq ParseFloat db trecord = Except.ok (db1, [Error.num te tfield])
        ∧ (∀ rest printed,
            recordLoop (transitRecord sqlEq ParseFloat) (trecord :: rest) (db, printed)
              = recordLoop (transitRecord sqlEq ParseFloat) rest
                  (db1, printed ++ [Error.num te tfield]))
        ∧ db1.cbsas.length = db.cbsas.length
        ∧ ∀ (i : Nat) (r : group_tracts.CBSA), db.cbsas[i]? = some r →
            ∃ r1, db1.cbsas[i]? = some r1
              ∧ (sqlEq tkey r.CBSA = true → r1.PublicTansitUsage = (ParseFloat tfield).1)
              ∧ (sqlEq tkey r.CBSA = false → r1 = r)) := by
  obtain ⟨db1, hb, hlen, hrows⟩ := bikeRecord_bad_field sqlEq db hdb record key field e hkey hfield hbad
  obtain ⟨db2, ht, htlen, htrows⟩ :=
    transitRecord_bad_field sqlEq ParseFloat db hdb trecord tkey tfield te htkey htfield htbad
  refine ⟨⟨db1, hb, ?_, hlen, hrows⟩, ?_, ⟨db2, ht, ?_, htlen, htrows⟩⟩
  · intro rest printed
    exact recordLoop_cons _ record rest db db1 printed _ hb
  · rcases ParseUint_error_value field e hbad with h | h
    · exact Or.inl h.2
    · exact Or.inr h.2
  · intro rest printed
    exact recordLoop_cons _ trecord rest db db2 printed _ ht

end OpenNWI

namespace OpenNWI.api

/-! ## Listing mode -/

theorem ReplaceAll_nil (old : UInt8) (new : GoString) : ReplaceAll [] old new = [] := rfl

/-- Listing mode: with no address the handler fetches and then renders. -/
theorem GetScores_listing (h : handler) (geocode : GoString → GeocoderReply) (req : Request)
    (ctx : Context) (haddr : req.address = []) :
    GetScores h geocode req ctx
      = match fetchScores h req ctx with
        | Except.error ctx1 => Except.ok ctx1
        | Except.ok scores => Except.ok (renderScores h req ctx scores) := by
  unfold GetScores
  simp only [haddr, ReplaceAll_nil, ne_eq, not_true_eq_false, if_false]

/-- Rendering on a fresh context never records an error, never aborts and leaves the
status at 200. -/
theorem renderScores_fresh (h : handler) (req : Request) (scores : List models.Rank) :
    (renderScores h req Context.fresh scores).Errors = []
      ∧ (renderScores h req Context.fresh scores).aborted = false
      ∧ (renderScores h req Context.fresh scores).status = 200 := by
  unfold renderScores
  simp only []
  by_cases hj : req.format = ascii "json"
  · rw [if_pos hj]
    exact ⟨rfl, rfl, rfl⟩
  · rw [if_neg hj]
    by_cases hx : req.format = ascii "xml"
    · rw [if_pos hx]
      exact ⟨rfl, rfl, rfl⟩
    · rw [if_neg hx]
      exact ⟨rfl, rfl, rfl⟩

/-- The fetch either returns rows or aborts with the error of a `Find` statement that
was run with the effective limit and offset. -/
theorem fetchScores_cases (h : handler) (req : Request) (ctx : Context) :
    (∃ scores, fetchScores h req ctx = Except.ok scores)
      ∨ (∃ e, fetchScores h req ctx = Except.error (ctx.AbortWithError StatusNotFound e)
          ∧ ((req.zipcode = []
                ∧ (h.DB.FindRanks (listingQuery req).Limit (listingQuery req).Offset).2 = some e)
              ∨ (req.zipcode ≠ []
                ∧ (h.DB.FindZipCodes (listingQuery req).Limit (listingQuery req).Offset
                    req.zipcode).2 = some e))) := by
  unfold fetchScores
  simp only []
  by_cases hz : req.zipcode = []
  · rw [if_pos hz]
    rcases hf : h.DB.FindRanks (listingQuery req).Limit (listingQuery req).Offset with ⟨rows, err⟩
    cases err with
    | none => exact Or.inl ⟨rows, rfl⟩
    | some e => exact Or.inr ⟨e, rfl, Or.inl ⟨hz, rfl⟩⟩
  · rw [if_neg hz]
    rcases hf : h.DB.FindZipCodes (listingQuery req).Limit (listingQuery req).Offset req.zipcode
      with ⟨rows, err⟩
    cases err with
    | none => exact Or.inl ⟨_, rfl⟩
    | some e => exact Or.inr ⟨e, rfl, Or.inr ⟨hz, rfl⟩⟩

theorem Atoi_nil : Atoi [] = (0, some NumError.ErrSyntax) := rfl

/-- C9: in listing mode the effective limit is 50 whenever `Atoi` rejects the limit
string (as it does the missing, empty one) and the parsed value otherwise; the effective
offset is 0 whenever `Atoi` rejects the offset string and the parsed value otherwise,
each independently of the other.  The handler always returns, and a rejected parameter
is never reported: the context ends without an error, not aborted and with status 200,
unless a `Find` statement, run with the effective limit and offset, itself failed. -/
theorem C9_limit_offset_defaults (h : handler) (geocode : GoString → GeocoderReply)
    (req : Request) (haddr : req.address = []) :
    (∀ e, (Atoi req.limit).2 = some e → (listingQuery req).Limit = 50)
      ∧ ((Atoi req.limit).2 = none → (listingQuery req).Limit = (Atoi req.limit).1)
      ∧ (∀ e, (Atoi req.offset).2 = some e → (listingQuery req).Offset = 0)
      ∧ ((Atoi req.offset).2 = none → (listingQuery req).Offset = (Atoi req.offset).1)
      ∧ (req.limit = [] → (listingQuery req).Limit = 50)
      ∧ (req.offset = [] → (listingQuery req).Offset = 0)
      ∧ ∃ ctx, GetScores h geocode req Context.fresh = Except.ok ctx
          ∧ ((ctx.Errors = [] ∧ ctx.aborted = false ∧ ctx.status = 200)
            ∨ ∃ e, ctx = Context.fresh.AbortWithError StatusNotFound e
                ∧ ((req.zipcode = []
                    ∧ (h.DB.FindRanks (listingQuery req).Limit (listingQuery req).Offset).2
                        = some e)
                  ∨ (req.zipcode ≠ []
                    ∧ (h.DB.FindZipCodes (listingQuery req).Limit (listingQuery req).Offset
                        req.zipcode).2 = some e))) := by
  have hl1 : ∀ e, (Atoi req.limit).2 = some e → (listingQuery req).Limit = 50 := by
    intro e he
    unfold listingQuery
    rcases hp : Atoi req.limit with ⟨v, err⟩
    rw [hp] at he
    simp only at he
    subst he
    rfl
  have hl2 : (Atoi req.limit).2 = none → (listingQuery req).Limit = (Atoi req.limit).1 := by
    intro he
    unfold listingQuery
    rcases hp : Atoi req.limit with ⟨v, err⟩
    rw [hp] at he
    simp only at he
    subst he
    rfl
  have ho1 : ∀ e, (Atoi req.offset).2 = some e → (listingQuery req).Offset = 0 := by
    intro e he
    unfold listingQuery
    rcases hp : Atoi req.offset with ⟨v, err⟩
    rw [hp] at he
    simp only at he
    subst he
    rfl
  have ho2 : (Atoi req.offset).2 = none → (listingQuery req).Offset = (Atoi req.offset).1 := by
    intro he
    unfold listingQuery
    rcases hp : Atoi req.offset with ⟨v, err⟩
    rw [hp] at he
    simp only at he
    subst he
    rfl
  refine ⟨hl1, hl2, ho1, ho2, ?_, ?_, ?_⟩
  · intro hnil
    exact hl1 NumError.ErrSyntax (by rw [hnil]; rfl)
  · intro hnil
    exact ho1 NumError.ErrSyntax (by rw [hnil]; rfl)
  · rw [GetScores_listing h geocode req Context.fresh haddr]
    rcases fetchScores_cases h req Context.fresh with ⟨scores, hs⟩ | ⟨e, he, hcause⟩
    · rw [hs]
      exact ⟨_, rfl, Or.inl (renderScores_fresh h req scores)⟩
    · rw [he]
      exact ⟨_, rfl, Or.inr ⟨e, rfl, hcause⟩⟩

/-- The `"json"` loop yields one entry per row, in order, carrying the row's geoid and
NWI. -/
theorem jsonResults_rows (h : handler) (format : GoString) (offset : Int)
    (scores : List models.Rank) (i : Nat) :
    (jsonResults h format offset scores i).map (fun r => (r.Geoid, r.NWI))
      = scores.map (fun s => (s.Geoid, s.NWI)) := by
  induction scores generalizing i with
  | nil => rfl
  | cons s rest ih =>
    rw [jsonResults, List.map_cons, List.map_cons, ih]

/-- The `"xml"` loop yields one entry per row, in order, carrying the row's geoid and
NWI. -/
theorem xmlResults_rows (h : handler) (format : GoString) (offset : Int)
    (scores : List models.Rank) (i : Nat) :
    (xmlResults h format offset scores i).map (fun r => (r.Geoid, r.NWI))
      = scores.map (fun s => (s.Geoid, s.NWI)) := by
  induction scores generalizing i with
  | nil => rfl
  | cons s rest ih =>
    rw [xmlResults, List.map_cons, List.map_cons, ih]

/-- A missed CSA or CBSA lookup leaves an empty name in the `"json"` entry. -/
theorem jsonResults_names (h : handler) (format : GoString) (offset : Int)
    (scores : List models.Rank) (i : Nat) :
    ∀ r ∈ jsonResults h format offset scores i,
      (∀ e, (h.DB.FirstCSA r.Geoid).2 = some e → r.CSA_name = [])
        ∧ (∀ e, (h.DB.FirstCBSA r.Geoid).2 = some e → r.CBSA_name = []) := by
  induction scores generalizing i with
  | nil => intro r hr; exact absurd hr (List.not_mem_nil r)
  | cons s rest ih =>
    intro r hr
    rw [jsonResults] at hr
    rcases List.mem_cons.mp hr with heq | hmem
    · subst heq
      constructor
      · intro e he
        simp only at he ⊢
        rcases hc : h.DB.FirstCSA s.Geoid with ⟨csa, err⟩
        rw [hc] at he
        simp only at he
        subst he
        rfl
      · intro e he
        simp only at he ⊢
        rcases hc : h.DB.FirstCBSA s.Geoid with ⟨cbsa, err⟩
        rw [hc] at he
        simp only at he
        subst he
        rfl
    · exact ih (i + 1) r hmem

/-- A missed CSA or CBSA lookup leaves an empty name in the `"xml"` entry. -/
theorem xmlResults_names (h : handler) (format : GoString) (offset : Int)
    (scores : List models.Rank) (i : Nat) :
    ∀ r ∈ xmlResults h format offset scores i,
      (∀ e, (h.DB.FirstCSA r.Geoid).2 = some e → r.CSA_name = [])
        ∧ (∀ e, (h.DB.FirstCBSA r.Geoid).2 = some e → r.CBSA_name = []) := by
  induction scores generalizing i with
  | nil => intro r hr; exact absurd hr (List.not_mem_nil r)
  | cons s rest ih =>
    intro r hr
    rw [xmlResults] at hr
    rcases List.mem_cons.mp hr with heq | hmem
    · subst heq
      constructor
      · intro e he
        simp only at he ⊢
        rcases hc : h.DB.FirstCSA s.Geoid with ⟨csa, err⟩
        rw [hc] at he
        simp only at he
        subst he
        rfl
      · intro e he
        simp only at he ⊢
        rcases hc : h.DB.FirstCBSA s.Geoid with ⟨cbsa, err⟩
        rw [hc] at he
        simp only at he
        subst he
        rfl
    · exact ih (i + 1) r hmem

end OpenNWI.api

namespace OpenNWI.api

/-- C10: in listing mode with format `json` or `xml`, whatever the store answers, once
the rows are fetched the handler answers 200, not aborted and without an error, and
renders exactly one list: one entry per fetched row, in the same order, carrying that
row's geoid and NWI; an entry whose CSA (resp. CBSA) lookup by geoid reports an error
has the empty string as its `CSA_name` (resp. `CBSA_name`). -/
theorem C10_listing_entries (h : handler) (geocode : GoString → GeocoderReply) (req : Request)
    (scores : List models.Rank) (haddr : req.address = [])
    (hfmt : req.format = ascii "json" ∨ req.format = ascii "xml")
    (hfetch : fetchScores h req Context.fresh = Except.ok scores) :
    ∃ ctx, GetScores h geocode req Context.fresh = Except.ok ctx
      ∧ ctx.status = 200 ∧ ctx.aborted = false ∧ ctx.Errors = []
      ∧ ((req.format = ascii "json" ∧ ∃ results, ctx.body = [Payload.scores results]
            ∧ results.length = scores.length
            ∧ results.map (fun r => (r.Geoid, r.NWI)) = scores.map (fun s => (s.Geoid, s.NWI))
            ∧ ∀ r ∈ results,
                (∀ e, (h.DB.FirstCSA r.Geoid).2 = some e → r.CSA_name = [])
                  ∧ (∀ e, (h.DB.FirstCBSA r.Geoid).2 = some e → r.CBSA_name = []))
        ∨ (req.format = ascii "xml" ∧ ∃ results, ctx.body = [Payload.scoresXML results]
            ∧ results.length = scores.length
            ∧ results.map (fun r => (r.Geoid, r.NWI)) = scores.map (fun s => (s.Geoid, s.NWI))
            ∧ ∀ r ∈ results,
                (∀ e, (h.DB.FirstCSA r.Geoid).2 = some e → r.CSA_name = [])
                  ∧ (∀ e, (h.DB.FirstCBSA r.Geoid).2 = some e → r.CBSA_name = []))) := by
  rw [GetScores_listing h geocode req Context.fresh haddr, hfetch]
  refine ⟨_, rfl, (renderScores_fresh h req scores).2.2, (renderScores_fresh h req scores).2.1,
    (renderScores_fresh h req scores).1, ?_⟩
  rcases hfmt with hj | hx
  · left
    refine ⟨hj, jsonResults h req.format (listingQuery req).Offset scores 0, ?_, ?_,
      jsonResults_rows _ _ _ _ _, jsonResults_names _ _ _ _ _⟩
    · unfold renderScores
      simp only []
      rw [if_pos hj]
      rfl
    · have := congrArg List.length (jsonResults_rows h req.format (listingQuery req).Offset scores 0)
      simpa using this
  · right
    have hnj : req.format ≠ ascii "json" := by
      rw [hx]
      exact fun hc => ascii_json_ne_xml hc.symm
    refine ⟨hx, xmlResults h req.format (listingQuery req).Offset scores 0, ?_, ?_,
      xmlResults_rows _ _ _ _ _, xmlResults_names _ _ _ _ _⟩
    · unfold renderScores
      simp only []
      rw [if_neg hnj, if_pos hx]
      rfl
    · have := congrArg List.length (xmlResults_rows h req.format (listingQuery req).Offset scores 0)
      simpa using this

/-! ### Zip-code listing over given tables -/

/-- Over given tables the zip loop appends, for each zip row in turn, the window of the
rank rows joined to that row's CBSA code. -/
theorem zipScoresLoop_tableStore (t : Tables) (query : serializers.ScoresQuery)
    (res : List models.ZipCode) (scores zipScores : List models.Rank) (printed : List Error) :
    (zipScoresLoop { DB := tableStore t } query res (scores, zipScores, printed)).1
      = scores ++ res.flatMap
          (fun item => window query.Limit query.Offset (joinedRanks t item.CBSA)) := by
  induction res generalizing scores zipScores printed with
  | nil => simp [zipScoresLoop]
  | cons item rest ih =>
    have hs : ({ DB := tableStore t } : handler).DB.ScanRanks query.Limit query.Offset item.CBSA
        zipScores = (window query.Limit query.Offset (joinedRanks t item.CBSA), none) := rfl
    rw [zipScoresLoop, hs]
    simp only []
    rw [ih]
    simp [List.flatMap_cons, List.append_assoc]

/-- Over given tables a zip-code listing fetches, for each zip row inside the window of
the zip lookup, the window of the rank rows joined to its CBSA code. -/
theorem fetchScores_tableStore_zip (t : Tables) (req : Request) (ctx : Context)
    (hzip : req.zipcode ≠ []) :
    fetchScores { DB := tableStore t } req ctx
      = Except.ok
          ((window (listingQuery req).Limit (listingQuery req).Offset
              (t.zipcodes.filter (fun z => decide (z.Zipcode = req.zipcode)))).flatMap
            (fun item => window (listingQuery req).Limit (listingQuery req).Offset
              (joinedRanks t item.CBSA))) := by
  unfold fetchScores
  simp only []
  rw [if_neg hzip]
  simp only [tableStore]
  have h := zipScoresLoop_tableStore t (listingQuery req)
    (window (listingQuery req).Limit (listingQuery req).Offset
      (t.zipcodes.filter (fun z => decide (z.Zipcode = req.zipcode)))) [] [] []
  simp only [tableStore, List.nil_append] at h
  rw [h]

/-- With offset 0 and a positive limit the window is the first `limit` rows. -/
theorem window_zero_offset {α : Type} (limit : Int) (rows : List α) (hl : 0 < limit) :
    window limit 0 rows = rows.take limit.toNat := by
  unfold window
  simp [hl]

/-- C5 (counterexample): in the test tables zip code 94601 is mapped to the two CBSA
codes 41860 and 41940, whose joined rank rows are tract 6001400100 and tract
6085500100.  A listing request for that zip code with `limit=1` fetches the row of the
first CBSA only; the row of the second CBSA is dropped from the answer. -/
theorem C5_limit_drops_second_cbsa_counterexample :
    (sampleTables.zipcodes.filter (fun z => decide (z.Zipcode = ascii "94601"))).map
        (fun z => z.CBSA) = [41860, 41940]
      ∧ joinedRanks sampleTables 41860 ++ joinedRanks sampleTables 41940
          = [rankRow 6001400100 142, rankRow 6085500100 97]
      ∧ fetchScores sampleHandler
            { address := [], format := ascii "json", zipcode := ascii "94601",
              limit := ascii "1", offset := [] } Context.fresh
          = Except.ok [rankRow 6001400100 142]
      ∧ GetScores sampleHandler geocodeNoMatch
            { address := [], format := ascii "json", zipcode := ascii "94601",
              limit := ascii "1", offset := [] } Context.fresh
          = Except.ok
              { status := 200, written := true, aborted := false, Errors := [],
                body := [Payload.scores
                  [{ ID := 0, Geoid := 6001400100,
                     CSA_name := ascii "San Jose-San Francisco-Oakland",
                     CBSA_name := ascii "San Francisco-Oakland", NWI := 142,
                     RegionalTransitUsagePercentage := 17, RegionalTransitUsage := 400000,
                     RegionalBikeRidership := 30000, Format := ascii "json" }]] } := by
  refine ⟨by decide, by decide, rfl, rfl⟩

/-- C5 (amended): over given tables, in listing mode with a zip code that the zip table
maps to two rows (CBSA codes `z1.CBSA` and `z2.CBSA`, distinct or not), with effective
offset 0 and effective limit `L` at least 2, `GetScores` fetches the first `L` rank rows
joined to the first code followed by the first `L` rank rows joined to the second code,
nothing suppressed; this is the whole union when neither code has more than `L` joined
rows.  With format `json` the answer lists exactly these rows, in this order. -/
theorem C5_zip_listing_concatenates_windows (t : Tables) (geocode : GoString → GeocoderReply)
    (req : Request) (z1 z2 : models.ZipCode)
    (haddr : req.address = []) (hzip : req.zipcode ≠ [])
    (hrows : t.zipcodes.filter (fun z => decide (z.Zipcode = req.zipcode)) = [z1, z2])
    (hoff : (listingQuery req).Offset = 0) (hlim : 2 ≤ (listingQuery req).Limit) :
    fetchScores { DB := tableStore t } req Context.fresh
        = Except.ok ((joinedRanks t z1.CBSA).take (listingQuery req).Limit.toNat
            ++ (joinedRanks t z2.CBSA).take (listingQuery req).Limit.toNat)
      ∧ (((joinedRanks t z1.CBSA).length : Int) ≤ (listingQuery req).Limit →
          ((joinedRanks t z2.CBSA).length : Int) ≤ (listingQuery req).Limit →
          fetchScores { DB := tableStore t } req Context.fresh
            = Except.ok (joinedRanks t z1.CBSA ++ joinedRanks t z2.CBSA))
      ∧ (req.format = ascii "json" →
          ∃ results, GetScores { DB := tableStore t } geocode req Context.fresh
              = Except.ok (Context.fresh.JSON StatusOK (Payload.scores results))
            ∧ results.map (fun r => (r.Geoid, r.NWI))
                = ((joinedRanks t z1.CBSA).take (listingQuery req).Limit.toNat
                    ++ (joinedRanks t z2.CBSA).take (listingQuery req).Limit.toNat).map
                  (fun s => (s.Geoid, s.NWI))) := by
  have hpos : 0 < (listingQuery req).Limit := by omega
  have h2 : 2 ≤ (listingQuery req).Limit.toNat := by omega
  have hfetch : fetchScores { DB := tableStore t } req Context.fresh
      = Except.ok ((joinedRanks t z1.CBSA).take (listingQuery req).Limit.toNat
          ++ (joinedRanks t z2.CBSA).take (listingQuery req).Limit.toNat) := by
    rw [fetchScores_tableStore_zip t req Context.fresh hzip, hrows, hoff]
    have htake : [z1, z2].take (listingQuery req).Limit.toNat = [z1, z2] := by
      apply List.take_of_length_le
      simpa using h2
    simp only [window_zero_offset _ _ hpos, htake, List.flatMap_cons, List.flatMap_nil,
      List.append_nil]
  refine ⟨hfetch, ?_, ?_⟩
  · intro hl1 hl2
    rw [hfetch]
    have e1 : (joinedRanks t z1.CBSA).take (listingQuery req).Limit.toNat = joinedRanks t z1.CBSA :=
      List.take_of_length_le (by omega)
    have e2 : (joinedRanks t z2.CBSA).take (listingQuery req).Limit.toNat = joinedRanks t z2.CBSA :=
      List.take_of_length_le (by omega)
    rw [e1, e2]
  · intro hj
    refine ⟨jsonResults { DB := tableStore t } req.format (listingQuery req).Offset
      ((joinedRanks t z1.CBSA).take (listingQuery req).Limit.toNat
        ++ (joinedRanks t z2.CBSA).take (listingQuery req).Limit.toNat) 0, ?_,
      jsonResults_rows _ _ _ _ _⟩
    rw [GetScores_listing _ geocode req Context.fresh haddr, hfetch]
    unfold renderScores
    simp only []
    rw [if_pos hj]

end OpenNWI.api

namespace OpenNWI

/-- C7 (witness): the amended statement at the test store, a bike record and a transit
record whose numeric fields read `n/a`; the bike record then sets the ridership of
CBSA 41860 to 0. -/
theorem C7_bad_field_overwrites_matching_rows_witness :
    sampleDB.fault = none
      ∧ sampleBikeRecord[3]? = some (ascii "41860")
      ∧ sampleBikeRecord[2]? = some (ascii "n/a")
      ∧ (ParseUint (ascii "n/a")).2 = some NumError.ErrSyntax
      ∧ sampleTransitRecord[4]? = some (ascii "41940")
      ∧ sampleTransitRecord[2]? = some (ascii "n/a")
      ∧ (sampleParseFloat (ascii "n/a")).2 = some NumError.ErrSyntax
      ∧ ((ParseUint (ascii "n/a")).1 = 0 ∨ (ParseUint (ascii "n/a")).1 = maxUint64) :=
  ⟨rfl, by decide, by decide, by decide, by decide, by decide, by decide,
    (C7_bad_field_overwrites_matching_rows decimalEq sampleParseFloat sampleDB rfl
      sampleBikeRecord (ascii "41860") (ascii "n/a") NumError.ErrSyntax
      (by decide) (by decide) (by decide)
      sampleTransitRecord (ascii "41940") (ascii "n/a") NumError.ErrSyntax
      (by decide) (by decide) (by decide)).2.1⟩

end OpenNWI

namespace OpenNWI.api

/-- C9 (witness): a listing request with `limit=many` and `offset=1` runs with limit 50
and offset 1. -/
theorem C9_limit_offset_defaults_witness :
    sampleListingRequest.address = []
      ∧ (Atoi sampleListingRequest.limit).2 = some NumError.ErrSyntax
      ∧ (Atoi sampleListingRequest.offset) = (1, none)
      ∧ (listingQuery sampleListingRequest).Limit = 50
      ∧ (listingQuery sampleListingRequest).Offset = (Atoi sampleListingRequest.offset).1 :=
  ⟨rfl, by decide, by decide,
    (C9_limit_offset_defaults sampleHandler geocodeNoMatch sampleListingRequest rfl).1
      NumError.ErrSyntax (by decide),
    (C9_limit_offset_defaults sampleHandler geocodeNoMatch sampleListingRequest rfl).2.2.2.1
      (by decide)⟩

/-- C10 (witness): the zip-code listing over the test tables fetches two rows and
answers 200 with one entry for each. -/
theorem C10_listing_entries_witness :
    sampleZipRequest.address = []
      ∧ (sampleZipRequest.format = ascii "json" ∨ sampleZipRequest.format = ascii "xml")
      ∧ fetchScores sampleHandler sampleZipRequest Context.fresh
          = Except.ok [rankRow 6001400100 142, rankRow 6085500100 97]
      ∧ ∃ ctx, GetScores sampleHandler geocodeNoMatch sampleZipRequest Context.fresh = Except.ok ctx
          ∧ ctx.status = 200 ∧ ctx.aborted = false ∧ ctx.Errors = [] :=
  ⟨rfl, Or.inl rfl, rfl,
    match C10_listing_entries sampleHandler geocodeNoMatch sampleZipRequest
        [rankRow 6001400100 142, rankRow 6085500100 97] rfl (Or.inl rfl) rfl with
    | ⟨ctx, h1, h2, h3, h4, _⟩ => ⟨ctx, h1, h2, h3, h4⟩⟩

/-- C5 (witness): over the test tables zip code 94601 has two rows; with the default
limit 50 and offset 0 the listing fetches the rows of CBSA 41860, then those of CBSA
41940. -/
theorem C5_zip_listing_concatenates_windows_witness :
    sampleZipRequest.address = []
      ∧ sampleZipRequest.zipcode ≠ []
      ∧ sampleTables.zipcodes.filter (fun z => decide (z.Zipcode = sampleZipRequest.zipcode))
          = [{ Zipcode := ascii "94601", CBSA := 41860 }, { Zipcode := ascii "94601", CBSA := 41940 }]
      ∧ (listingQuery sampleZipRequest).Offset = 0
      ∧ 2 ≤ (listingQuery sampleZipRequest).Limit
      ∧ fetchScores { DB := tableStore sampleTables } sampleZipRequest Context.fresh
          = Except.ok ((joinedRanks sampleTables 41860).take (listingQuery sampleZipRequest).Limit.toNat
              ++ (joinedRanks sampleTables 41940).take (listingQuery sampleZipRequest).Limit.toNat) :=
  ⟨rfl, by decide, by decide, by decide, by decide,
    (C5_zip_listing_concatenates_windows sampleTables geocodeNoMatch sampleZipRequest
      { Zipcode := ascii "94601", CBSA := 41860 } { Zipcode := ascii "94601", CBSA := 41940 }
      rfl (by decide) (by decide) (by decide) (by decide)).1⟩

end OpenNWI.api
